import Mathlib

/-! TicketLine: the three browser scripts of the queue front end

* `src/script.js`            the standalone demo queue          (namespace `Script`)
* `src/static/js/admin.js`   the admin dashboard client         (namespace `Admin`)
* `src/static/js/app.js`     the customer-facing client         (namespace `App`)

Global variables and the parts of the DOM a script touches are explicit state.
Values the scripts obtain from the browser (the clock, `Math.random`, the
outcome of a `fetch`, the nodes parsed from markup) are inputs of the functions
that read them.  Counters are
natural numbers: the scripts only ever add one to them.
-/

namespace TicketLine

/-! ## ECMAScript values and string helpers -/

/-- A JavaScript value as far as the scripts look at one.  `builtin name` is the
object found under `name` on `Object.prototype` (for instance the function
`toString`); numbers are integers. -/
inductive JsVal where
  | undefined
  | null
  | bool (b : Bool)
  | num (n : Int)
  | str (s : String)
  | builtin (name : String)
deriving DecidableEq, Repr

namespace JsVal

/-- ToBoolean. -/
def truthy : JsVal → Bool
  | undefined => false
  | null => false
  | bool b => b
  | num n => n ≠ 0
  | str s => s ≠ ""
  | builtin _ => true

/-- The operator `a || b`. -/
def or (a b : JsVal) : JsVal := if a.truthy then a else b

/-- ToString, as used by template literals and `textContent`. -/
def toStr : JsVal → String
  | undefined => "undefined"
  | null => "null"
  | bool b => if b then "true" else "false"
  | num n => toString n
  | str s => s
  | builtin name =>
      if name = "__proto__" then "[object Object]"
      else if name = "constructor" then "function Object() \x7b [native code] \x7d"
      else "function " ++ name ++ "() \x7b [native code] \x7d"

end JsVal

/-- Property names that every object literal inherits from `Object.prototype`. -/
def objectPrototypeKeys : List String :=
  ["constructor", "hasOwnProperty", "isPrototypeOf", "propertyIsEnumerable",
   "toLocaleString", "toString", "valueOf", "__proto__",
   "__defineGetter__", "__defineSetter__", "__lookupGetter__", "__lookupSetter__"]

/-- The expression `literal[key]` for an object literal with string-valued own
properties `entries`: an own property first, then the prototype chain. -/
def lookupLiteral (entries : List (String × String)) (key : String) : JsVal :=
  match entries.lookup key with
  | some v => JsVal.str v
  | none => if key ∈ objectPrototypeKeys then JsVal.builtin key else JsVal.undefined

/-- ECMAScript WhiteSpace and LineTerminator code points: what
`String.prototype.trim` strips. -/
def isJsWhiteSpace (c : Char) : Bool :=
  decide (c.toNat ∈ [0x9, 0xA, 0xB, 0xC, 0xD, 0x20, 0xA0, 0x1680, 0x2028, 0x2029,
                     0x202F, 0x205F, 0x3000, 0xFEFF])
    || (decide (0x2000 ≤ c.toNat) && decide (c.toNat ≤ 0x200A))

/-- The method `String.prototype.trim`. -/
def jsTrim (s : String) : String :=
  String.mk ((s.data.dropWhile isJsWhiteSpace).reverse.dropWhile isJsWhiteSpace).reverse

/-- The call `s.padStart(2, '0')`. -/
def padStart2 (s : String) : String :=
  String.mk (List.replicate (2 - s.length) '0') ++ s

/-- What the scripts read off a `Date` object. -/
structure JsDate where
  epochMs : Nat
  hours : Nat
  minutes : Nat
deriving DecidableEq, Repr

/-! ## `script.js`: the standalone demo queue -/

namespace Script

/-- The object built in `handleJoinQueue`. -/
structure User where
  id : String
  queueNumber : Nat
  name : String
  service : String
  joinTime : JsDate
  formattedTime : String
deriving DecidableEq, Repr

/-- One card produced by `createQueueItemElement`. -/
structure QueueCard where
  position : String
  name : String
  serviceClass : String
  serviceLabel : String
  time : String
deriving DecidableEq, Repr

/-- The elements of the page that the script reads or writes. -/
structure Dom where
  userNameValue : String
  serviceTypeValue : String
  queueListChildren : List QueueCard
  queueListDisplay : String
  queueListHasItems : Bool
  emptyStateDisplay : String
  serveNextDisabled : Bool
  servingSectionDisplay : String
  servingNumber : String
  servingName : String
  servingTime : String
  queueCount : String
  servedCount : String
  avgWait : String
  notifications : List String
  alerts : List String
deriving DecidableEq, Repr

/-- The four global variables of the script together with the page. -/
structure Page where
  queue : List User
  currentlyServing : Option User
  totalServed : Nat
  queueCounter : Nat
  dom : Dom
deriving DecidableEq, Repr

/-- The globals as declared at the top of the script, on a page `d`. -/
def initial (d : Dom) : Page :=
  { queue := [], currentlyServing := none, totalServed := 0, queueCounter := 1, dom := d }

/-- What `handleJoinQueue` takes from the clock and the random generator. -/
structure JoinEnv where
  idNow : Nat
  idRandom : String
  joinTime : JsDate
  stampTime : JsDate
deriving DecidableEq, Repr

def getServiceLabel (service : String) : String :=
  ((lookupLiteral [("general", "General Service"), ("priority", "Priority Service"),
      ("emergency", "Emergency")] service).or (JsVal.str "General Service")).toStr

def formatTime (date : JsDate) : String :=
  padStart2 (toString date.hours) ++ ":" ++ padStart2 (toString date.minutes)

def generateId (now : Nat) (random : String) : String :=
  "user_" ++ toString now ++ "_" ++ random

def showNotification (message : String) (p : Page) : Page :=
  { p with dom := { p.dom with notifications := p.dom.notifications ++ [message] } }

def alert (message : String) (p : Page) : Page :=
  { p with dom := { p.dom with alerts := p.dom.alerts ++ [message] } }

def createQueueItemElement (user : User) (position : Nat) : QueueCard :=
  { position := "Position #" ++ toString position,
    name := user.name,
    serviceClass := "queue-service service-" ++ user.service,
    serviceLabel := getServiceLabel user.service,
    time := "Joined at " ++ user.formattedTime }

/-- The cards for `queue.forEach((user, index) => ... index + 1 ...)`, `index` counted from `i`. -/
def queueCards : List User → Nat → List QueueCard
  | [], _ => []
  | user :: rest, i => createQueueItemElement user (i + 1) :: queueCards rest (i + 1)

def updateQueueDisplay (p : Page) : Page :=
  if p.queue.length = 0 then
    { p with dom := { p.dom with
        queueListChildren := [],
        emptyStateDisplay := "block",
        queueListDisplay := "none",
        queueListHasItems := false,
        serveNextDisabled := true } }
  else
    { p with dom := { p.dom with
        emptyStateDisplay := "none",
        queueListDisplay := "grid",
        queueListHasItems := true,
        serveNextDisabled := p.currentlyServing.isSome,
        queueListChildren := queueCards p.queue 0 } }

def updateServingDisplay (p : Page) : Page :=
  match p.currentlyServing with
  | some user =>
      { p with dom := { p.dom with
          servingSectionDisplay := "block",
          servingNumber := "#" ++ toString user.queueNumber,
          servingName := user.name,
          servingTime := "Service Type: " ++ getServiceLabel user.service } }
  | none => { p with dom := { p.dom with servingSectionDisplay := "none" } }

/-- Here `Math.floor(queue.length * 3.5)` is `7 * length / 2` rounded down. -/
def updateStatistics (p : Page) : Page :=
  let avgWait := if p.queue.length > 0 then 7 * p.queue.length / 2 else 0
  { p with dom := { p.dom with
      queueCount := toString p.queue.length,
      servedCount := toString p.totalServed,
      avgWait := toString avgWait } }

/-- The submit handler; the typed name and the selected service are the values
of the two form controls. -/
def handleJoinQueue (env : JoinEnv) (p : Page) : Page :=
  let userName := jsTrim p.dom.userNameValue
  if userName = "" then
    alert "Please enter your name" p
  else
    let newUser : User :=
      { id := generateId env.idNow env.idRandom,
        queueNumber := p.queueCounter,
        name := userName,
        service := p.dom.serviceTypeValue,
        joinTime := env.joinTime,
        formattedTime := formatTime env.stampTime }
    let p1 : Page := { p with queueCounter := p.queueCounter + 1, queue := p.queue ++ [newUser] }
    let p2 : Page := { p1 with dom := { p1.dom with userNameValue := "", serviceTypeValue := "general" } }
    let p3 := updateStatistics (updateQueueDisplay p2)
    showNotification
      (userName ++ " added to queue (Position #" ++ toString p3.queue.length ++ ")") p3

def serveNextUser (p : Page) : Page :=
  if p.queue.length = 0 then p
  else if p.currentlyServing.isSome then
    alert "Please complete the current service first" p
  else
    let p1 : Page := { p with currentlyServing := p.queue.head?, queue := p.queue.tail }
    updateStatistics (updateQueueDisplay (updateServingDisplay p1))

def completeService (p : Page) : Page :=
  match p.currentlyServing with
  | none => p
  | some user =>
      let p1 : Page := { p with totalServed := p.totalServed + 1 }
      let p2 := showNotification ("Service completed for " ++ user.name) p1
      let p3 : Page := { p2 with currentlyServing := none }
      let p4 : Page := { p3 with dom := { p3.dom with servingSectionDisplay := "none" } }
      updateStatistics p4

/-- One user action on the demo page: fill in the form and submit it, press
"serve next", or press "complete service". -/
inductive Op where
  | join (name service : String) (env : JoinEnv)
  | serveNext
  | complete
deriving DecidableEq, Repr

/-- The visitor types `name` and selects `service`. -/
def fillForm (name service : String) (p : Page) : Page :=
  { p with dom := { p.dom with userNameValue := name, serviceTypeValue := service } }

def Op.apply : Op → Page → Page
  | .join name service env, p => handleJoinQueue env (fillForm name service p)
  | .serveNext, p => serveNextUser p
  | .complete, p => completeService p

/-- The state after a sequence of actions. -/
def run : List Op → Page → Page
  | [], p => p
  | op :: ops, p => run ops (op.apply p)

/-- The users a single action adds to the queue. -/
def joinedBy (op : Op) (p : Page) : List User :=
  match op with
  | .join _ _ _ => (op.apply p).queue.drop p.queue.length
  | _ => []

/-- The user that a single action makes `currentlyServing`, if it does. -/
def servedBy (op : Op) (p : Page) : List User :=
  if (op.apply p).currentlyServing = p.currentlyServing then []
  else (op.apply p).currentlyServing.toList

/-- Users accepted by `handleJoinQueue` during a sequence of actions, in order. -/
def joinedLog : List Op → Page → List User
  | [], _ => []
  | op :: ops, p => joinedBy op p ++ joinedLog ops (op.apply p)

/-- Users that became `currentlyServing` during a sequence of actions, in order. -/
def servedLog : List Op → Page → List User
  | [], _ => []
  | op :: ops, p => servedBy op p ++ servedLog ops (op.apply p)

end Script

/-! ## What the two server-backed clients share -/

/-- A ticket object as it arrives in a JSON body.  A field that is absent is
`undefined` (or `none`); `position` is a number, `status` and `priority_type`
are strings, and `timestamp` stands for the time value of `new Date(timestamp)`
in milliseconds, `none` for an invalid date. -/
structure Ticket where
  id : JsVal
  number : JsVal
  name : JsVal
  category : JsVal
  priority_type : Option String
  position : Option Int
  status : Option String
  timestamp : Option Int
deriving DecidableEq, Repr

/-- The field `waiting_tickets` of a payload: absent (or another falsy value);
an array, each entry a ticket object or `null`; or any other truthy value, of
which the scripts only read the property `length`.  An array entry that is
neither an object nor `null` reads as a ticket without fields. -/
inductive WaitingTickets where
  | absent
  | array (entries : List (Option Ticket))
  | other (length : JsVal)
deriving DecidableEq, Repr

/-- The body of `GET /api/queue-status`, an object; every field may be absent. -/
structure QueueStatus where
  waiting_count : JsVal
  served_count : JsVal
  priority_stats : Option (List (String × JsVal))
  next_ticket : Option Ticket
  waiting_tickets : WaitingTickets
deriving DecidableEq, Repr

/-- The body of `POST /api/serve-next` and of `POST /api/request-ticket`. -/
structure ActionResult where
  success : JsVal
  message : JsVal
  error : JsVal
  ticket : Option Ticket
deriving DecidableEq, Repr

/-- The body of `GET /api/my-ticket/:id`: a ticket, possibly with an `error` field. -/
structure TicketReply where
  error : JsVal
  ticket : Ticket
deriving DecidableEq, Repr

/-- How `await fetch(...)` followed by `await response.json()` ends. -/
inductive FetchOutcome (α : Type) where
  | networkFailure
  | parseFailure
  | body (data : α)
deriving DecidableEq, Repr

/-- The exceptions that occur in the scripts. -/
inductive JsError where
  | fetchFailed
  | invalidJson
  | typeError (what : String)
deriving DecidableEq, Repr

/-- The `socket` global once `io()` has returned. -/
structure Socket where
  connected : Bool
deriving DecidableEq, Repr

/-- A call of `fetch`. -/
structure Request where
  method : String
  url : String
deriving DecidableEq, Repr

/-- A button element. -/
structure Button where
  innerHTML : String
  disabled : Bool
deriving DecidableEq, Repr

/-- The element appended to `document.body` by `showNotification`. -/
structure Toast where
  className : String
  textContent : JsVal
deriving DecidableEq, Repr

/-- A node of the document below a log container: a piece of text, or an
element with its class tokens and its children. -/
inductive Node where
  | text (content : String)
  | element (classes : List String) (children : List Node)
deriving Repr

/-- The clock as read during one handler. -/
structure Clock where
  nowMs : Int
  localeTime : String
deriving DecidableEq, Repr

/-- A computation over state `σ` that returns normally or throws; what it did to
the state before throwing stays done. -/
def Js (σ α : Type) : Type := σ → Except JsError α × σ

namespace Js

variable {σ α β : Type}

def ret (a : α) : Js σ α := fun s => (Except.ok a, s)

def andThen (m : Js σ α) (f : α → Js σ β) : Js σ β := fun s =>
  match m s with
  | (Except.ok a, s1) => f a s1
  | (Except.error e, s1) => (Except.error e, s1)

instance : Monad (Js σ) where
  pure := ret
  bind := andThen

def throw (e : JsError) : Js σ α := fun s => (Except.error e, s)

def modify (f : σ → σ) : Js σ Unit := fun s => (Except.ok (), f s)

/-- The statement `try body catch (e) handler`. -/
def tryCatch (body : Js σ α) (handler : JsError → Js σ α) : Js σ α := fun s =>
  match body s with
  | (Except.ok a, s1) => (Except.ok a, s1)
  | (Except.error e, s1) => handler e s1

/-- The statement `try body finally fin`. -/
def tryFinally (body : Js σ α) (fin : Js σ Unit) : Js σ α := fun s =>
  match body s with
  | (r, s1) =>
    match fin s1 with
    | (Except.ok _, s2) => (r, s2)
    | (Except.error e, s2) => (Except.error e, s2)

/-- A computation that does not touch the state. -/
def ofExcept (r : Except JsError α) : Js σ α := fun s => (r, s)

/-- The value of `await fetch(...)` then `await response.json()`, without the
bookkeeping of the request. -/
def awaitJson (outcome : FetchOutcome α) : Js σ α :=
  match outcome with
  | FetchOutcome.networkFailure => throw JsError.fetchFailed
  | FetchOutcome.parseFailure => throw JsError.invalidJson
  | FetchOutcome.body data => ret data

end Js

/-- Assignment `el.textContent = v` for the element with this id, if there is one. -/
def setTextById (id : String) (v : JsVal) : List (String × JsVal) → List (String × JsVal)
  | [] => []
  | (k, old) :: rest => if k = id then (k, v) :: rest else (k, old) :: setTextById id v rest

mutual

/-- The number of elements carrying class `cls` in a subtree, its root included. -/
def Node.countClass (cls : String) : Node → Nat
  | Node.text _ => 0
  | Node.element classes children =>
      (if cls ∈ classes then 1 else 0) + countClassIn cls children

/-- The value of `container.querySelectorAll('.' ++ cls).length` for a container
with these children: every descendant that carries the class counts. -/
def countClassIn (cls : String) : List Node → Nat
  | [] => 0
  | node :: rest => node.countClass cls + countClassIn cls rest

end

mutual

/-- A subtree without the last element, in document order, that carries class
`cls`; `none` when that element is the root. -/
def Node.removeLastOfClass (cls : String) : Node → Option Node
  | Node.text content => some (Node.text content)
  | Node.element classes children =>
      if countClassIn cls children > 0 then
        some (Node.element classes (removeLastOfClassIn cls children))
      else if cls ∈ classes then none
      else some (Node.element classes children)

/-- The statement `matches[matches.length - 1].remove()` for the matches of
`querySelectorAll('.' ++ cls)`: the last match in document order leaves the tree. -/
def removeLastOfClassIn (cls : String) : List Node → List Node
  | [] => []
  | node :: rest =>
      if countClassIn cls rest > 0 then node :: removeLastOfClassIn cls rest
      else
        match node.removeLastOfClass cls with
        | some node1 => node1 :: rest
        | none => rest

end

/-- The common end of `addActivityLog` and `addLiveUpdate` on an existing
container: insert the new item before the first child, and when more than
`limit` elements below the container carry `itemClass` remove the last of them. -/
def prependAndTrim (itemClass : String) (limit : Nat) (item : Node)
    (children : List Node) : List Node :=
  let children1 := item :: children
  if countClassIn itemClass children1 > limit then
    removeLastOfClassIn itemClass children1
  else children1

/-- The element of `Array.prototype.join`: `undefined` and `null` give the empty string. -/
def joinPiece (v : JsVal) : String :=
  match v with
  | JsVal.undefined => ""
  | JsVal.null => ""
  | other => other.toStr

/-- The call `row.join(',')`. -/
def jsJoin (row : List JsVal) : String := ",".intercalate (row.map joinPiece)

def optStr (s : Option String) : JsVal :=
  match s with
  | some v => JsVal.str v
  | none => JsVal.undefined

def optNum (n : Option Int) : JsVal :=
  match n with
  | some v => JsVal.num v
  | none => JsVal.undefined

/-- Property read `obj[key]` on an object parsed from JSON, for a key that is
not inherited. -/
def jsonGet (obj : List (String × JsVal)) (key : String) : JsVal :=
  (obj.lookup key).getD JsVal.undefined

/-! ## `static/js/admin.js`: the admin dashboard client -/

namespace Admin

/-- One `queue-item` block written by `updateQueueList`. -/
structure QueueRow where
  number : String
  details : String
  priorityClass : String
  priority : String
deriving DecidableEq, Repr

/-- The content of `#queue-list`: markup set as a string, or the rows built from tickets. -/
inductive QueueListView where
  | html (markup : String)
  | rows (items : List QueueRow)
deriving DecidableEq, Repr

/-- The `socket` global and the parts of the admin page the script touches.  An
element that may be missing from the page is an `Option`; `texts` holds the
`textContent` of the elements written through `safeText` / `setText`, by id;
`activityLog` holds the children of `#activity-log`.  `parseHtml` is the HTML
parser of the browser: the nodes it builds from a string assigned to the
`innerHTML` of a `div`. -/
structure World where
  socket : Option Socket
  texts : List (String × JsVal)
  nextCustomerDisplay : Option String
  queueList : Option QueueListView
  serveBtn : Option Button
  activityLog : Option (List Node)
  toasts : List Toast
  requests : List Request
  console : List (String × String)
  downloads : List (String × String)
  parseHtml : String → List Node

def pollIntervalMs : Nat := 5000

def activityLimit : Nat := 15

def serviceMap : List (String × String) :=
  [("railway", "Railway Booking"), ("airline", "Airline Booking"),
   ("exam", "Exam Registration"), ("government", "Government Service"),
   ("healthcare", "Healthcare Service"), ("other", "Other Service")]

def formatService (category : JsVal) : JsVal :=
  (lookupLiteral serviceMap category.toStr).or category

def formatPriority (priority : JsVal) : JsVal :=
  (lookupLiteral [("staff", "Staff Member"), ("elderly", "Senior Citizen"),
     ("disabled", "Disabled Person"), ("regular", "Regular User")] priority.toStr).or priority

/-- With `Math.floor` as division rounding down; an invalid date makes every
comparison false and prints `NaN`. -/
def calculateWaitTime (clock : Clock) (timestamp : Option Int) : String :=
  match timestamp with
  | none => "NaNh NaNm"
  | some ticketTime =>
      let diffMs := clock.nowMs - ticketTime
      let diffMins := diffMs / (1000 * 60)
      if diffMins < 1 then "< 1 min"
      else if diffMins < 60 then toString diffMins ++ " min"
      else
        let hours := diffMins / 60
        let mins := diffMins % 60
        toString hours ++ "h " ++ toString mins ++ "m"

def showNotification (message : JsVal) (type : String) (w : World) : World :=
  { w with toasts := w.toasts ++ [{ className := "notification " ++ type, textContent := message }] }

/-- The template literal assigned to `activity.innerHTML`. -/
def activityMarkup (message now : String) : String :=
  "\n        <div class=\"activity-text\">" ++ message ++ "</div>\n"
    ++ "        <div class=\"activity-time\">" ++ now ++ "</div>\n    "

/-- The class tokens of the item are those of `activity-item activity-${type}`,
for a `type` without white space. -/
def addActivityLog (clock : Clock) (message type : String) (w : World) : World :=
  match w.activityLog with
  | none => w
  | some children =>
      let activity := Node.element ["activity-item", "activity-" ++ type]
        (w.parseHtml (activityMarkup message clock.localeTime))
      let children1 := prependAndTrim "activity-item" activityLimit activity children
      { w with activityLog := some children1 }

def consoleLog (level message : String) (w : World) : World :=
  { w with console := w.console ++ [(level, message)] }

def safeText (id : String) (v : JsVal) (w : World) : World :=
  { w with texts := setTextById id v w.texts }

def updateNextCustomer (nextTicket : Option Ticket) (w : World) : World :=
  match w.nextCustomerDisplay with
  | none => w
  | some _ =>
      match nextTicket with
      | some t =>
          let w1 : World := { w with nextCustomerDisplay := some "block" }
          let w2 := safeText "next-ticket-number" t.number w1
          let w3 := safeText "next-customer-name" t.name w2
          let w4 := safeText "next-customer-service" (formatService t.category) w3
          safeText "next-customer-priority" (formatPriority (optStr t.priority_type)) w4
      | none => { w with nextCustomerDisplay := some "none" }

def queueRow (clock : Clock) (ticket : Ticket) : QueueRow :=
  let waitTime := calculateWaitTime clock ticket.timestamp
  { number := "#" ++ ticket.number.toStr,
    details := ticket.name.toStr ++ " • " ++ (formatService ticket.category).toStr
      ++ " • Waiting " ++ waitTime,
    priorityClass := "queue-item-priority priority-" ++ (optStr ticket.priority_type).toStr,
    priority := (optStr ticket.priority_type).toStr }

/-- The rows built by `tickets.forEach(...)`: reading `ticket.timestamp` of a
`null` entry throws, and then nothing has been written yet. -/
def queueRows (clock : Clock) : List (Option Ticket) → Except JsError (List QueueRow)
  | [] => Except.ok []
  | none :: _ => Except.error (JsError.typeError "ticket is null")
  | some ticket :: rest =>
      match queueRows clock rest with
      | Except.ok rows => Except.ok (queueRow clock ticket :: rows)
      | Except.error e => Except.error e

/-- The call `updateQueueList(data.waiting_tickets || [])`. -/
def updateQueueList (clock : Clock) (tickets : WaitingTickets) : Js World Unit := fun w =>
  match w.queueList with
  | none => (Except.ok (), w)
  | some _ =>
      match tickets with
      | WaitingTickets.absent =>
          (Except.ok (),
            { w with queueList := some (QueueListView.html "<p>No customers in queue</p>") })
      | WaitingTickets.array entries =>
          if entries.length = 0 then
            (Except.ok (),
              { w with queueList := some (QueueListView.html "<p>No customers in queue</p>") })
          else
            match queueRows clock entries with
            | Except.ok rows =>
                (Except.ok (), { w with queueList := some (QueueListView.rows rows) })
            | Except.error e => (Except.error e, w)
      | WaitingTickets.other length =>
          if !length.truthy then
            (Except.ok (),
              { w with queueList := some (QueueListView.html "<p>No customers in queue</p>") })
          else (Except.error (JsError.typeError "tickets.forEach is not a function"), w)

/-- Assignments to `serveBtn.innerHTML` and `serveBtn.disabled`. -/
def setServeBtn (b : Button) (w : World) : World := { w with serveBtn := some b }

/-- The first part of `updateAdminDashboard`: the statistics, the priority
counts and the next customer. -/
def updateStatisticsAndNext (data : QueueStatus) (w : World) : World :=
  let w1 := safeText "admin-waiting-count" (data.waiting_count.or (JsVal.num 0)) w
  let w2 := safeText "admin-served-count" (data.served_count.or (JsVal.num 0)) w1
  let priorityStats := data.priority_stats.getD []
  let w3 := safeText "staff-count" ((jsonGet priorityStats "staff").or (JsVal.num 0)) w2
  let w4 := safeText "elderly-count" ((jsonGet priorityStats "elderly").or (JsVal.num 0)) w3
  updateNextCustomer data.next_ticket w4

/-- The last part of `updateAdminDashboard`: the state of the serve button. -/
def updateServeButton (data : QueueStatus) (w : World) : World :=
  match w.serveBtn with
  | none => w
  | some _ =>
      if data.waiting_count = JsVal.num 0 then
        setServeBtn
          { disabled := true, innerHTML := "<span class=\"btn-icon\">😴</span>No Customers" } w
      else
        setServeBtn
          { disabled := false,
            innerHTML := "<span class=\"btn-icon\">👤</span>Serve Next Customer" } w

def updateAdminDashboard (clock : Clock) (data : QueueStatus) : Js World Unit := do
  Js.modify (updateStatisticsAndNext data)
  updateQueueList clock data.waiting_tickets
  Js.modify (updateServeButton data)

def fetch (method url : String) (w : World) : World :=
  { w with requests := w.requests ++ [{ method := method, url := url }] }

def loadQueueStatus (clock : Clock) (reply : FetchOutcome QueueStatus) : Js World Unit :=
  Js.tryCatch
    (do
      Js.modify (fetch "GET" "/api/queue-status")
      let data ← Js.awaitJson reply
      updateAdminDashboard clock data)
    (fun _ => do
      Js.modify (consoleLog "error" "Error loading queue status:")
      Js.modify (addActivityLog clock "❌ Failed to load queue status" "error"))

/-- The callback of `setInterval(..., 5000)`. -/
def pollTick (clock : Clock) (reply : FetchOutcome QueueStatus) : Js World Unit := fun w =>
  match w.socket with
  | none => loadQueueStatus clock reply w
  | some socket =>
      if !socket.connected then loadQueueStatus clock reply w
      else (Except.ok (), w)

def serveNext (clock : Clock) (reply : FetchOutcome ActionResult) : Js World Unit := fun w =>
  match w.serveBtn with
  | none => (Except.ok (), w)
  | some serveBtn =>
      let originalText := serveBtn.innerHTML
      let w1 := setServeBtn
        { innerHTML := "<span class=\"spinner\"></span>Serving...", disabled := true } w
      Js.tryFinally
        (Js.tryCatch
          (do
            Js.modify (fetch "POST" "/api/serve-next")
            let result ← Js.awaitJson reply
            if result.success.truthy then
              Js.modify (showNotification result.message "success")
              match result.ticket with
              | none => Js.throw (JsError.typeError "result.ticket is undefined")
              | some ticket =>
                  Js.modify (addActivityLog clock
                    ("🎯 Served customer: " ++ ticket.name.toStr ++ " (Ticket #"
                      ++ ticket.number.toStr ++ ")") "success")
            else
              Js.modify (showNotification
                (result.error.or (JsVal.str "No customers in queue")) "error")
              Js.modify (addActivityLog clock "⚠️ No customers to serve" "info"))
          (fun _ => do
            Js.modify (consoleLog "error" "Error serving next customer:")
            Js.modify (showNotification (JsVal.str "Network error - please try again") "error")))
        (Js.modify (setServeBtn { innerHTML := originalText, disabled := false }))
        w1

def csvRow (clock : Clock) (ticket : Ticket) : String :=
  jsJoin [ticket.number,
          JsVal.str ("\"" ++ ticket.name.toStr ++ "\""),
          formatService ticket.category,
          optStr ticket.priority_type,
          optNum ticket.position,
          JsVal.str (calculateWaitTime clock ticket.timestamp)]

/-- The loop `(...).forEach(ticket => ... csv += ...)` from the text `csv` on:
reading `ticket.number` of a `null` entry throws. -/
def csvRows (clock : Clock) : List (Option Ticket) → String → Except JsError String
  | [], csv => Except.ok csv
  | none :: _, _ => Except.error (JsError.typeError "ticket is null")
  | some ticket :: rest, csv => csvRows clock rest (csv ++ (csvRow clock ticket ++ "\n"))

def generateCSV (clock : Clock) (data : QueueStatus) : Except JsError String :=
  let headers := ["Ticket Number", "Name", "Service", "Priority", "Position", "Wait Time"]
  let csv := ",".intercalate headers ++ "\n"
  match data.waiting_tickets with
  | WaitingTickets.absent => Except.ok csv
  | WaitingTickets.array entries => csvRows clock entries csv
  | WaitingTickets.other _ =>
      Except.error (JsError.typeError "forEach is not a function")

def downloadCSV (csvData filename : String) (w : World) : World :=
  { w with downloads := w.downloads ++ [(filename, csvData)] }

/-- The promise chain `fetch(...).then(...).then(...).catch(...)`. -/
def exportData (clock : Clock) (reply : FetchOutcome QueueStatus) : Js World Unit :=
  Js.tryCatch
    (do
      Js.modify (fetch "GET" "/api/queue-status")
      let data ← Js.awaitJson reply
      let csvData ← Js.ofExcept (generateCSV clock data)
      Js.modify (downloadCSV csvData "queue_data.csv")
      Js.modify (showNotification (JsVal.str "Data exported successfully") "success")
      Js.modify (addActivityLog clock "📊 Queue data exported" "info"))
    (fun _ => do
      Js.modify (consoleLog "error" "Export error:")
      Js.modify (showNotification (JsVal.str "Export failed") "error"))

end Admin

/-! ## `static/js/app.js`: the customer-facing client -/

namespace App

/-- The values `FormData.get` returns for the four fields (`none` for `null`). -/
structure FormValues where
  name : Option String
  email : Option String
  category : Option String
  priority : Option String
deriving DecidableEq, Repr

/-- The element `#ticketForm`: current values, the values `reset()` restores,
and the submit button if the form has one. -/
structure Form where
  values : FormValues
  defaults : FormValues
  submitBtn : Option Button
deriving DecidableEq, Repr

/-- The element `#priority-badge`. -/
structure Badge where
  textContent : String
  className : String
deriving DecidableEq, Repr

/-- The globals `socket` and `currentTicket` and the parts of the customer page
the script touches, with the conventions of `Admin.World`.  `statusBadgeClass`
is the `className` of `#ticket-status`, an element that exists exactly when
`texts` has an entry for it; `priorityStats` holds the rows of `#priority-stats`
and `liveUpdates` the children of `#live-updates`. -/
structure World where
  socket : Option Socket
  currentTicket : Option Ticket
  form : Option Form
  requestFormDisplay : Option String
  ticketDisplay : Option String
  texts : List (String × JsVal)
  priorityBadge : Option Badge
  statusBadgeClass : String
  priorityStats : Option (List (JsVal × JsVal))
  liveUpdates : Option (List Node)
  toasts : List Toast
  requests : List Request
  console : List (String × String)
  parseHtml : String → List Node

def pollIntervalMs : Nat := 5000

def liveUpdateLimit : Nat := 10

def serviceMap : List (String × String) :=
  [("railway", "Railway Booking"), ("airline", "Airline Booking"),
   ("exam", "Exam Registration"), ("government", "Government Service"),
   ("healthcare", "Healthcare Service"), ("other", "Other Service")]

def formatService (category : JsVal) : JsVal :=
  (lookupLiteral serviceMap category.toStr).or category

def calculateEstimatedWait (position : Option Int) : String :=
  match position with
  | none => "Now"
  | some pos =>
      if pos = 0 ∨ pos ≤ 0 then "Now"
      else
        let avgServiceTime : Int := 3
        let estimatedMinutes := pos * avgServiceTime
        if estimatedMinutes < 60 then "~" ++ toString estimatedMinutes ++ " min"
        else
          let hours := estimatedMinutes / 60
          let minutes := estimatedMinutes % 60
          "~" ++ toString hours ++ "h " ++ toString minutes ++ "m"

def showNotification (message : JsVal) (type : String) (w : World) : World :=
  { w with toasts := w.toasts ++ [{ className := "notification " ++ type, textContent := message }] }

/-- The template literal assigned to `update.innerHTML`. -/
def updateMarkup (message now : String) : String :=
  "\n        <div class=\"activity-text\">" ++ message ++ "</div>\n"
    ++ "        <div class=\"update-time\">" ++ now ++ "</div>\n    "

/-- The class tokens of the item are those of `update-item activity-${type}`,
for a `type` without white space. -/
def addLiveUpdate (clock : Clock) (message type : String) (w : World) : World :=
  match w.liveUpdates with
  | none => w
  | some children =>
      let update := Node.element ["update-item", "activity-" ++ type]
        (w.parseHtml (updateMarkup message clock.localeTime))
      let children1 := prependAndTrim "update-item" liveUpdateLimit update children
      { w with liveUpdates := some children1 }

def consoleLog (level message : String) (w : World) : World :=
  { w with console := w.console ++ [(level, message)] }

def setText (id : String) (v : JsVal) (w : World) : World :=
  { w with texts := setTextById id v w.texts }

/-- The assignment `statusBadge.className = ...` when `#ticket-status` exists. -/
def setStatusBadgeClass (cls : String) (w : World) : World :=
  if (w.texts.lookup "ticket-status").isSome then { w with statusBadgeClass := cls } else w

/-- The expression `ticket.position || fallback`. -/
def positionOr (position : Option Int) (fallback : String) : JsVal :=
  (optNum position).or (JsVal.str fallback)

/-- Status and priority words are ASCII, for which `toUpperCase` is `String.toUpper`. -/
def upperOrEmpty (s : Option String) : String := (s.getD "").toUpper

/-- Scrolling is not part of the state. -/
def showTicket (ticket : Option Ticket) : Js World Unit := do
  Js.modify (fun w => { w with requestFormDisplay := w.requestFormDisplay.map (fun _ => "none") })
  Js.modify (fun w => { w with ticketDisplay := w.ticketDisplay.map (fun _ => "block") })
  match ticket with
  | none => Js.throw (JsError.typeError "ticket is undefined")
  | some t =>
      Js.modify (setText "ticket-number" (JsVal.str ("#" ++ t.number.toStr)))
      Js.modify (setText "ticket-name" t.name)
      Js.modify (setText "ticket-service" (formatService t.category))
      Js.modify (setText "queue-position" (positionOr t.position "-"))
      Js.modify (setText "ticket-status" (JsVal.str (upperOrEmpty t.status)))
      Js.modify (setText "estimated-wait" (JsVal.str (calculateEstimatedWait t.position)))
      Js.modify (fun w => { w with priorityBadge := w.priorityBadge.map (fun _ =>
        { textContent := upperOrEmpty t.priority_type,
          className := "badge priority-" ++ (optStr t.priority_type).toStr }) })
      Js.modify (setStatusBadgeClass ("status-badge " ++ (optStr t.status).toStr))

def updateTicketDisplay (ticket : Ticket) (w : World) : World :=
  match w.currentTicket with
  | none => w
  | some current =>
      if current.id ≠ ticket.id then w
      else
        let w1 := setText "queue-position" (positionOr ticket.position "Being Served") w
        let w2 := setText "ticket-status" (JsVal.str (upperOrEmpty ticket.status)) w1
        let wait :=
          if ticket.status = some "served" then "Now" else calculateEstimatedWait ticket.position
        let w3 := setText "estimated-wait" (JsVal.str wait) w2
        setStatusBadgeClass ("status-badge " ++ (optStr ticket.status).toStr) w3

def priorityLabel (priority : String) : JsVal :=
  (lookupLiteral [("staff", "Staff"), ("elderly", "Senior Citizens"),
     ("disabled", "Disabled"), ("regular", "Regular")] priority).or (JsVal.str priority)

def updatePriorityStats (stats : List (String × JsVal)) (w : World) : World :=
  match w.priorityStats with
  | none => w
  | some _ =>
      { w with priorityStats := some (stats.map (fun entry => (priorityLabel entry.1, entry.2))) }

def updateQueueStatus (data : QueueStatus) (w : World) : World :=
  let w1 := setText "waiting-count" (data.waiting_count.or (JsVal.num 0)) w
  let w2 := setText "served-count" (data.served_count.or (JsVal.num 0)) w1
  let next :=
    match data.next_ticket with
    | some t => "#" ++ t.number.toStr
    | none => "-"
  let w3 := setText "next-number" (JsVal.str next) w2
  updatePriorityStats (data.priority_stats.getD []) w3

def fetch (method url : String) (w : World) : World :=
  { w with requests := w.requests ++ [{ method := method, url := url }] }

def loadQueueStatus (reply : FetchOutcome QueueStatus) : Js World Unit :=
  Js.tryCatch
    (do
      Js.modify (fetch "GET" "/api/queue-status")
      let data ← Js.awaitJson reply
      Js.modify (updateQueueStatus data))
    (fun _ => Js.modify (consoleLog "error" "Error loading queue status:"))

/-- The callback of `setInterval(..., 5000)`. -/
def pollTick (reply : FetchOutcome QueueStatus) : Js World Unit := fun w =>
  match w.socket with
  | none => loadQueueStatus reply w
  | some socket =>
      if !socket.connected then loadQueueStatus reply w
      else (Except.ok (), w)

def refreshTicketStatus (reply : FetchOutcome TicketReply) : Js World Unit := fun w =>
  match w.currentTicket with
  | none => (Except.ok (), w)
  | some current =>
      Js.tryCatch
        (do
          Js.modify (fetch "GET" ("/api/my-ticket/" ++ current.id.toStr))
          let ticket ← Js.awaitJson reply
          if !ticket.error.truthy then
            Js.modify (fun w1 => { w1 with currentTicket := some ticket.ticket })
            Js.modify (updateTicketDisplay ticket.ticket)
          else
            Js.modify (consoleLog "warn" "Ticket refresh: "))
        (fun _ => Js.modify (consoleLog "error" "Error refreshing ticket status:"))
        w

/-- The test `!ticketData.name || !ticketData.email || ...` on one field. -/
def missing (field : Option String) : Bool :=
  match field with
  | none => true
  | some v => v = ""

def setSubmitBtn (b : Button) (w : World) : World :=
  { w with form := w.form.map (fun f => { f with submitBtn := f.submitBtn.map (fun _ => b) }) }

def resetForm (w : World) : World :=
  { w with form := w.form.map (fun f => { f with values := f.defaults }) }

def requestTicket (clock : Clock) (reply : FetchOutcome ActionResult) : Js World Unit := fun w =>
  match w.form with
  | none => (Except.ok (), w)
  | some form =>
      let ticketData := form.values
      if missing ticketData.name || missing ticketData.email || missing ticketData.category
          || missing ticketData.priority then
        (Except.ok (), showNotification (JsVal.str "Please fill in all required fields") "error" w)
      else
        let originalText := form.submitBtn.map (fun b => b.innerHTML)
        let w1 := setSubmitBtn
          { innerHTML := "<span class=\"spinner\"></span> Requesting...", disabled := true } w
        Js.tryFinally
          (Js.tryCatch
            (do
              Js.modify (fetch "POST" "/api/request-ticket")
              let result ← Js.awaitJson reply
              if result.success.truthy then
                Js.modify (fun w2 => { w2 with currentTicket := result.ticket })
                showTicket result.ticket
                Js.modify (showNotification result.message "success")
                Js.modify resetForm
                match result.ticket with
                | none => Js.throw (JsError.typeError "result.ticket is undefined")
                | some ticket =>
                    Js.modify (addLiveUpdate clock
                      ("🎫 New ticket #" ++ ticket.number.toStr ++ " requested by "
                        ++ ticket.name.toStr) "info")
              else
                Js.modify (showNotification
                  (result.error.or (JsVal.str "Failed to request ticket")) "error"))
            (fun _ => do
              Js.modify (consoleLog "error" "Error requesting ticket:")
              Js.modify (showNotification (JsVal.str "Network error - please try again") "error")))
          (Js.modify (setSubmitBtn { innerHTML := originalText.getD "", disabled := false }))
          w1

end App


/-! ## Traces and concrete inputs used in the statements -/

/-- The outcome is a failure of the fetch or of the JSON parse. -/
def FetchOutcome.failed {α : Type} : FetchOutcome α → Bool
  | FetchOutcome.networkFailure => true
  | FetchOutcome.parseFailure => true
  | FetchOutcome.body _ => false

/-- One call of a logging function: the clock it reads, the message and the type. -/
structure LogCall where
  clock : Clock
  message : String
  type : String
deriving DecidableEq, Repr

/-- A token of the markup read by `demoParseHtml`. -/
inductive MarkupToken where
  | text (content : String)
  | openDiv (classes : List String)
  | closeDiv
deriving Repr

/-- The words of a class attribute, `word` being the one read so far, reversed. -/
def classWords : List Char → List Char → List String
  | [], word => if word.isEmpty then [] else [String.mk word.reverse]
  | c :: rest, word =>
      if c = ' ' then
        (if word.isEmpty then [] else [String.mk word.reverse]) ++ classWords rest []
      else classWords rest (c :: word)

/-- What follows `class=` and the opening quotation mark inside a start tag, up
to the closing quotation mark. -/
def classValue : List Char → List Char
  | [] => []
  | c :: rest =>
      if (c :: rest).take 7 = "class=\"".data then
        (rest.drop 6).takeWhile (fun d => d ≠ Char.ofNat 34)
      else classValue rest

/-- The token for what stands between the angle brackets of a tag. -/
def tagToken (tag : List Char) : MarkupToken :=
  if tag.head? = some '/' then MarkupToken.closeDiv
  else MarkupToken.openDiv (classWords (classValue tag) [])

/-- The tokens of a markup string; `inTag` says whether an angle bracket is
open and `acc` holds the characters read since the last token, reversed. -/
def tokenize : List Char → Bool → List Char → List MarkupToken
  | [], _, acc => if acc.isEmpty then [] else [MarkupToken.text (String.mk acc.reverse)]
  | c :: rest, false, acc =>
      if c = '<' then
        (if acc.isEmpty then [] else [MarkupToken.text (String.mk acc.reverse)])
          ++ tokenize rest true []
      else tokenize rest false (c :: acc)
  | c :: rest, true, acc =>
      if c = '>' then tagToken acc.reverse :: tokenize rest false []
      else tokenize rest true (c :: acc)

/-- The nodes once every element still open is closed: `frames` are the open
elements, innermost first, each with its classes and its elder siblings. -/
def closeAll : List (List String × List Node) → List Node → List Node
  | [], current => current.reverse
  | (classes, outer) :: frames, current =>
      closeAll frames (Node.element classes current.reverse :: outer)

/-- The tree for a list of tokens; `current` holds the nodes of the innermost
open element read so far, reversed. -/
def buildNodes : List MarkupToken → List (List String × List Node) → List Node → List Node
  | [], frames, current => closeAll frames current
  | MarkupToken.text content :: rest, frames, current =>
      buildNodes rest frames (Node.text content :: current)
  | MarkupToken.openDiv classes :: rest, frames, current =>
      buildNodes rest ((classes, current) :: frames) []
  | MarkupToken.closeDiv :: rest, [], current => buildNodes rest [] current
  | MarkupToken.closeDiv :: rest, (classes, outer) :: frames, current =>
      buildNodes rest frames (Node.element classes current.reverse :: outer)

/-- A reading of the HTML parser that is enough for the examples: text without
markup characters, and properly nested `div` elements with a class attribute. -/
def demoParseHtml (s : String) : List Node := buildNodes (tokenize s.data false []) [] []

namespace Script

/-- The demo page as first rendered, before any input. -/
def demoDom : Dom :=
  { userNameValue := "", serviceTypeValue := "general", queueListChildren := [],
    queueListDisplay := "none", queueListHasItems := false, emptyStateDisplay := "block",
    serveNextDisabled := true, servingSectionDisplay := "none", servingNumber := "",
    servingName := "", servingTime := "", queueCount := "0", servedCount := "0",
    avgWait := "0", notifications := [], alerts := [] }

/-- A reading of the clock and of the random generator. -/
def demoEnv : JoinEnv :=
  { idNow := 1700000000000, idRandom := "k3j9x0q1z",
    joinTime := { epochMs := 1700000000000, hours := 9, minutes := 5 },
    stampTime := { epochMs := 1700000000001, hours := 9, minutes := 5 } }

/-- The demo page with `name` typed into the form. -/
def demoPage (name : String) : Page :=
  { initial demoDom with dom := { demoDom with userNameValue := name } }

/-- The user `handleJoinQueue` builds on page `p`. -/
def newUser (env : JoinEnv) (p : Page) : User :=
  { id := generateId env.idNow env.idRandom,
    queueNumber := p.queueCounter,
    name := jsTrim p.dom.userNameValue,
    service := p.dom.serviceTypeValue,
    joinTime := env.joinTime,
    formattedTime := formatTime env.stampTime }

end Script

/-- A reading of the clock. -/
def demoClock : Clock := { nowMs := 1700000000000, localeTime := "9:05:00 AM" }

/-- A waiting ticket. -/
def demoTicket : Ticket :=
  { id := JsVal.str "t-1", number := JsVal.num 7, name := JsVal.str "Ann",
    category := JsVal.str "exam", priority_type := some "regular", position := some 1,
    status := some "waiting", timestamp := some 1699999000000 }

namespace Admin

/-- The admin page with every element present, an empty activity log and the
push connection in state `connected`. -/
def demoWorld (connected : Bool) : World :=
  { socket := some { connected := connected },
    texts := [("admin-waiting-count", JsVal.str "0"), ("admin-served-count", JsVal.str "0"),
              ("staff-count", JsVal.str "0"), ("elderly-count", JsVal.str "0"),
              ("next-ticket-number", JsVal.str ""), ("next-customer-name", JsVal.str ""),
              ("next-customer-service", JsVal.str ""), ("next-customer-priority", JsVal.str "")],
    nextCustomerDisplay := some "none",
    queueList := some (QueueListView.html ""),
    serveBtn := some { innerHTML := "Serve Next Customer", disabled := false },
    activityLog := some [],
    toasts := [], requests := [], console := [], downloads := [],
    parseHtml := demoParseHtml }

/-- The element that `addActivityLog` builds for a call on page `w`. -/
def activityItem (w : World) (c : LogCall) : Node :=
  Node.element ["activity-item", "activity-" ++ c.type]
    (w.parseHtml (activityMarkup c.message c.clock.localeTime))

/-- A sequence of `addActivityLog` calls. -/
def logAll (calls : List LogCall) (w : World) : World :=
  calls.foldl (fun w1 c => addActivityLog c.clock c.message c.type w1) w

end Admin

namespace App

/-- The customer page with every element present, a filled-in form, an empty
live-update list and the push connection in state `connected`. -/
def demoWorld (connected : Bool) : World :=
  { socket := some { connected := connected },
    currentTicket := some demoTicket,
    form := some
      { values := { name := some "Ann", email := some "ann@example.org",
                    category := some "exam", priority := some "regular" },
        defaults := { name := some "", email := some "", category := some "",
                      priority := some "regular" },
        submitBtn := some { innerHTML := "Request Ticket", disabled := false } },
    requestFormDisplay := some "block",
    ticketDisplay := some "none",
    texts := [("waiting-count", JsVal.str "0"), ("served-count", JsVal.str "0"),
              ("next-number", JsVal.str "-"), ("ticket-number", JsVal.str ""),
              ("ticket-name", JsVal.str ""), ("ticket-service", JsVal.str ""),
              ("queue-position", JsVal.str ""), ("ticket-status", JsVal.str ""),
              ("estimated-wait", JsVal.str "")],
    priorityBadge := some { textContent := "", className := "badge" },
    statusBadgeClass := "status-badge",
    priorityStats := some [],
    liveUpdates := some [],
    toasts := [], requests := [], console := [],
    parseHtml := demoParseHtml }

/-- The element that `addLiveUpdate` builds for a call on page `w`. -/
def updateItem (w : World) (c : LogCall) : Node :=
  Node.element ["update-item", "activity-" ++ c.type]
    (w.parseHtml (updateMarkup c.message c.clock.localeTime))

/-- A sequence of `addLiveUpdate` calls. -/
def logAll (calls : List LogCall) (w : World) : World :=
  calls.foldl (fun w1 c => addLiveUpdate c.clock c.message c.type w1) w

end App

/-- Seventeen logging calls, numbered 0 to 16. -/
def demoCalls : List LogCall :=
  (List.range 17).map (fun i => { clock := demoClock, message := toString i, type := "info" })

/-- For each `i` below `n`, a logging call whose message is a `div` of class
`itemClass` around the number `i`. -/
def markupCalls (itemClass : String) (n : Nat) : List LogCall :=
  (List.range n).map (fun i =>
    { clock := demoClock,
      message := "<div class=\"" ++ itemClass ++ "\">" ++ toString i ++ "</div>",
      type := "info" })

/-- The payload `\x7bwaiting_count: 0, waiting_tickets: [null]\x7d`. -/
def nullTicketPayload : QueueStatus :=
  { waiting_count := JsVal.num 0, served_count := JsVal.undefined, priority_stats := none,
    next_ticket := none, waiting_tickets := WaitingTickets.array [none] }

/-- A payload for an empty queue. -/
def emptyQueuePayload : QueueStatus :=
  { waiting_count := JsVal.num 0, served_count := JsVal.num 3, priority_stats := none,
    next_ticket := none, waiting_tickets := WaitingTickets.array [] }

/-- A payload for a queue with one waiting ticket. -/
def oneWaitingPayload : QueueStatus :=
  { waiting_count := JsVal.num 1, served_count := JsVal.num 3, priority_stats := none,
    next_ticket := some demoTicket, waiting_tickets := WaitingTickets.array [some demoTicket] }

/-- The payloads on which `updateQueueList` and `generateCSV` find an array of
ticket objects, or nothing to list. -/
def WaitingTickets.listable : WaitingTickets → Bool
  | WaitingTickets.absent => true
  | WaitingTickets.array entries => entries.all (fun entry => entry.isSome)
  | WaitingTickets.other length => !length.truthy

/-! ## Lemmas on strings -/

theorem string_mk_eq_empty (l : List Char) : String.mk l = "" ↔ l = [] := by
  constructor
  · intro h
    have := congrArg String.data h
    simpa using this
  · intro h
    subst h
    rfl

theorem jsTrim_eq_empty_iff (s : String) :
    jsTrim s = "" ↔ ∀ c ∈ s.data, isJsWhiteSpace c = true := by
  unfold jsTrim
  rw [string_mk_eq_empty, List.reverse_eq_nil_iff, List.dropWhile_eq_nil_iff]
  constructor
  · intro h
    have h1 : s.data.dropWhile isJsWhiteSpace = [] := by
      cases hd : s.data.dropWhile isJsWhiteSpace with
      | nil => rfl
      | cons a l =>
        exfalso
        have ha : isJsWhiteSpace a = true := h a (by simp [hd])
        have hne : s.data.dropWhile isJsWhiteSpace ≠ [] := by simp [hd]
        have := List.head_dropWhile_not isJsWhiteSpace s.data hne
        simp [hd] at this
        simp [this] at ha
    exact List.dropWhile_eq_nil_iff.mp h1
  · intro h x hx
    have h1 : s.data.dropWhile isJsWhiteSpace = [] := List.dropWhile_eq_nil_iff.mpr h
    simp [h1] at hx

/-! ## The standalone demo queue -/

namespace Script

theorem updateQueueDisplay_globals (p : Page) :
    (updateQueueDisplay p).queue = p.queue
      ∧ (updateQueueDisplay p).currentlyServing = p.currentlyServing
      ∧ (updateQueueDisplay p).totalServed = p.totalServed
      ∧ (updateQueueDisplay p).queueCounter = p.queueCounter
      ∧ (updateQueueDisplay p).dom.notifications = p.dom.notifications := by
  unfold updateQueueDisplay
  split <;> simp

theorem updateServingDisplay_globals (p : Page) :
    (updateServingDisplay p).queue = p.queue
      ∧ (updateServingDisplay p).currentlyServing = p.currentlyServing
      ∧ (updateServingDisplay p).totalServed = p.totalServed
      ∧ (updateServingDisplay p).queueCounter = p.queueCounter
      ∧ (updateServingDisplay p).dom.notifications = p.dom.notifications := by
  unfold updateServingDisplay
  split <;> simp

theorem updateStatistics_globals (p : Page) :
    (updateStatistics p).queue = p.queue
      ∧ (updateStatistics p).currentlyServing = p.currentlyServing
      ∧ (updateStatistics p).totalServed = p.totalServed
      ∧ (updateStatistics p).queueCounter = p.queueCounter
      ∧ (updateStatistics p).dom.notifications = p.dom.notifications := by
  simp [updateStatistics]

theorem handleJoinQueue_blank (env : JoinEnv) (p : Page) (h : jsTrim p.dom.userNameValue = "") :
    handleJoinQueue env p = alert "Please enter your name" p := by
  simp [handleJoinQueue, h]

theorem handleJoinQueue_named (env : JoinEnv) (p : Page) (h : jsTrim p.dom.userNameValue ≠ "") :
    (handleJoinQueue env p).queue = p.queue ++ [newUser env p]
      ∧ (handleJoinQueue env p).currentlyServing = p.currentlyServing
      ∧ (handleJoinQueue env p).totalServed = p.totalServed
      ∧ (handleJoinQueue env p).queueCounter = p.queueCounter + 1
      ∧ (handleJoinQueue env p).dom.notifications = p.dom.notifications ++
          [jsTrim p.dom.userNameValue ++ " added to queue (Position #"
            ++ toString (p.queue.length + 1) ++ ")"] := by
  simp only [handleJoinQueue, h, if_false, showNotification]
  simp [updateStatistics_globals, updateQueueDisplay_globals, newUser]

end Script

namespace Script

theorem serveNextUser_idle (p : Page)
    (h : p.queue = [] ∨ p.currentlyServing ≠ none) :
    (serveNextUser p).queue = p.queue
      ∧ (serveNextUser p).currentlyServing = p.currentlyServing
      ∧ (serveNextUser p).totalServed = p.totalServed
      ∧ (serveNextUser p).queueCounter = p.queueCounter := by
  unfold serveNextUser
  by_cases hq : p.queue.length = 0
  · simp [hq]
  · have hs : p.currentlyServing.isSome = true := by
      rcases h with h | h
      · simp [h] at hq
      · exact Option.isSome_iff_ne_none.mpr h
    simp [hq, hs, alert]

theorem serveNextUser_serves (p : Page) (first : User) (rest : List User)
    (hq : p.queue = first :: rest) (hs : p.currentlyServing = none) :
    (serveNextUser p).queue = rest
      ∧ (serveNextUser p).currentlyServing = some first
      ∧ (serveNextUser p).totalServed = p.totalServed
      ∧ (serveNextUser p).queueCounter = p.queueCounter := by
  unfold serveNextUser
  simp [hq, hs, updateStatistics_globals, updateQueueDisplay_globals,
    updateServingDisplay_globals]

theorem completeService_idle (p : Page) (h : p.currentlyServing = none) :
    completeService p = p := by
  unfold completeService
  simp [h]

theorem completeService_busy (p : Page) (h : p.currentlyServing ≠ none) :
    (completeService p).queue = p.queue
      ∧ (completeService p).currentlyServing = none
      ∧ (completeService p).totalServed = p.totalServed + 1
      ∧ (completeService p).queueCounter = p.queueCounter := by
  unfold completeService
  cases hc : p.currentlyServing with
  | none => exact absurd hc h
  | some user => simp [updateStatistics_globals, showNotification]

/-- Every action keeps `queue ++ joined = served ++ queue'`. -/
theorem step_fifo (op : Op) (p : Page) :
    p.queue ++ joinedBy op p = servedBy op p ++ (op.apply p).queue := by
  cases op with
  | join name service env =>
    simp only [joinedBy, servedBy, Op.apply]
    generalize hp1 : fillForm name service p = p1
    have e1 : p1.queue = p.queue := by subst hp1; rfl
    have e2 : p1.currentlyServing = p.currentlyServing := by subst hp1; rfl
    by_cases h : jsTrim p1.dom.userNameValue = ""
    · rw [handleJoinQueue_blank env p1 h]
      simp [alert, e1, e2]
    · obtain ⟨hq, hc, -, -, -⟩ := handleJoinQueue_named env p1 h
      rw [hq, hc, e1, e2]
      simp
  | serveNext =>
    simp only [joinedBy, servedBy, Op.apply]
    by_cases h : p.queue = [] ∨ p.currentlyServing ≠ none
    · obtain ⟨hq, hc, -, -⟩ := serveNextUser_idle p h
      rw [hq, hc]
      simp
    · push_neg at h
      obtain ⟨hne, hs⟩ := h
      obtain ⟨first, rest, hq⟩ := List.exists_cons_of_ne_nil hne
      obtain ⟨hq1, hc, -, -⟩ := serveNextUser_serves p first rest hq hs
      rw [hq1, hc, hs, hq]
      simp
  | complete =>
    simp only [joinedBy, servedBy, Op.apply]
    by_cases h : p.currentlyServing = none
    · rw [completeService_idle p h]
      simp
    · obtain ⟨hq, hc, -, -⟩ := completeService_busy p h
      rw [hq, hc]
      simp

/-- Every action hands out consecutive queue numbers from the counter. -/
theorem step_numbers (op : Op) (p : Page) :
    (joinedBy op p).map User.queueNumber = List.range' p.queueCounter (joinedBy op p).length
      ∧ (op.apply p).queueCounter = p.queueCounter + (joinedBy op p).length := by
  cases op with
  | join name service env =>
    simp only [joinedBy, Op.apply]
    generalize hp1 : fillForm name service p = p1
    have e1 : p1.queue = p.queue := by subst hp1; rfl
    have e3 : p1.queueCounter = p.queueCounter := by subst hp1; rfl
    by_cases h : jsTrim p1.dom.userNameValue = ""
    · rw [handleJoinQueue_blank env p1 h]
      simp [alert, e1, e3]
    · obtain ⟨hq, -, -, hn, -⟩ := handleJoinQueue_named env p1 h
      rw [hq, hn, e1, e3]
      simp [newUser, e3]
  | serveNext =>
    simp only [joinedBy, Op.apply]
    by_cases h : p.queue = [] ∨ p.currentlyServing ≠ none
    · simp [(serveNextUser_idle p h).2.2.2]
    · push_neg at h
      obtain ⟨hne, hs⟩ := h
      obtain ⟨first, rest, hq⟩ := List.exists_cons_of_ne_nil hne
      simp [(serveNextUser_serves p first rest hq hs).2.2.2]
  | complete =>
    simp only [joinedBy, Op.apply]
    by_cases h : p.currentlyServing = none
    · rw [completeService_idle p h]
      simp
    · simp [(completeService_busy p h).2.2.2]

theorem run_fifo (ops : List Op) :
    ∀ p : Page, p.queue ++ joinedLog ops p = servedLog ops p ++ (run ops p).queue := by
  induction ops with
  | nil => intro p; simp [joinedLog, servedLog, run]
  | cons op ops ih =>
    intro p
    simp only [joinedLog, servedLog, run]
    rw [← List.append_assoc, step_fifo op p, List.append_assoc, ih (op.apply p),
      List.append_assoc]

theorem run_numbers (ops : List Op) :
    ∀ p : Page, (joinedLog ops p).map User.queueNumber
        = List.range' p.queueCounter (joinedLog ops p).length := by
  induction ops with
  | nil => intro p; simp [joinedLog]
  | cons op ops ih =>
    intro p
    obtain ⟨h1, h2⟩ := step_numbers op p
    simp only [joinedLog, List.map_append, List.length_append]
    rw [h1, ih (op.apply p), h2, List.range'_append_1, Nat.add_comm]

end Script

namespace Script

/-- C1: the standalone demo queue is first in, first out.  After any sequence
of join / serve-next / complete-service actions from the initial state, the
users that became `currentlyServing`, in the order they were served, are an
initial segment of the users accepted by `handleJoinQueue`, in the order they
joined; what is left of the accepted users is exactly the waiting queue, and
no user (no queue number) is served twice. -/
theorem demo_queue_fifo (d : Dom) (ops : List Op) :
    servedLog ops (initial d) <+: joinedLog ops (initial d)
      ∧ joinedLog ops (initial d) = servedLog ops (initial d) ++ (run ops (initial d)).queue
      ∧ (servedLog ops (initial d)).Nodup
      ∧ ((servedLog ops (initial d)).map User.queueNumber).Nodup := by
  have hfifo : joinedLog ops (initial d)
      = servedLog ops (initial d) ++ (run ops (initial d)).queue := by
    have := run_fifo ops (initial d)
    simpa [initial] using this
  have hpre : servedLog ops (initial d) <+: joinedLog ops (initial d) :=
    ⟨(run ops (initial d)).queue, hfifo.symm⟩
  have hnum : ((joinedLog ops (initial d)).map User.queueNumber).Nodup := by
    rw [run_numbers ops (initial d)]
    exact List.nodup_range' _ _
  have hsub : ((servedLog ops (initial d)).map User.queueNumber).Nodup :=
    hnum.sublist (hpre.sublist.map _)
  exact ⟨hpre, hfifo, hsub.of_map _, hsub⟩

/-- C4: when the typed name is non-empty after trimming, `handleJoinQueue`
appends exactly one user at the end of the queue, with the trimmed name, the
selected service and the counter value from before the call as queue number;
the counter grows by one, `currentlyServing` and `totalServed` stay, and the
notification reports the new queue length as position.  From the initial state
the k-th accepted join therefore gets number k, and queue numbers never repeat. -/
theorem handleJoinQueue_appends :
    (∀ (env : JoinEnv) (p : Page), jsTrim p.dom.userNameValue ≠ "" →
        (∃ u : User, (handleJoinQueue env p).queue = p.queue ++ [u]
            ∧ u.name = jsTrim p.dom.userNameValue
            ∧ u.service = p.dom.serviceTypeValue
            ∧ u.queueNumber = p.queueCounter)
          ∧ (handleJoinQueue env p).queueCounter = p.queueCounter + 1
          ∧ (handleJoinQueue env p).currentlyServing = p.currentlyServing
          ∧ (handleJoinQueue env p).totalServed = p.totalServed
          ∧ (handleJoinQueue env p).dom.notifications = p.dom.notifications ++
              [jsTrim p.dom.userNameValue ++ " added to queue (Position #"
                ++ toString (handleJoinQueue env p).queue.length ++ ")"])
      ∧ (∀ (d : Dom) (ops : List Op),
          (∀ (k : Nat) (hk : k < (joinedLog ops (initial d)).length),
              ((joinedLog ops (initial d)).get ⟨k, hk⟩).queueNumber = k + 1)
            ∧ ((joinedLog ops (initial d)).map User.queueNumber).Nodup) := by
  constructor
  · intro env p h
    obtain ⟨hq, hc, ht, hn, hm⟩ := handleJoinQueue_named env p h
    refine ⟨⟨newUser env p, hq, rfl, rfl, rfl⟩, hn, hc, ht, ?_⟩
    rw [hm, hq]
    simp
  · intro d ops
    have hnum := run_numbers ops (initial d)
    constructor
    · intro k hk
      have h1 : ((joinedLog ops (initial d)).map User.queueNumber)[k]?
          = (List.range' (initial d).queueCounter (joinedLog ops (initial d)).length)[k]? := by
        rw [hnum]
      rw [List.getElem?_map, List.getElem?_range' _ _ hk, List.getElem?_eq_getElem hk] at h1
      simp only [Option.map_some', Option.some.injEq] at h1
      rw [List.get_eq_getElem, h1]
      simp [initial, Nat.add_comm]
    · rw [hnum]
      exact List.nodup_range' _ _

/-- C5: when the typed name is empty or consists only of white space,
`handleJoinQueue` rejects the join: the queue, `currentlyServing`,
`totalServed` and `queueCounter` are the same before and after, nothing is
announced as added, and the visitor is asked for a name. -/
theorem handleJoinQueue_rejects_blank (env : JoinEnv) (p : Page)
    (h : ∀ c ∈ p.dom.userNameValue.data, isJsWhiteSpace c = true) :
    (handleJoinQueue env p).queue = p.queue
      ∧ (handleJoinQueue env p).currentlyServing = p.currentlyServing
      ∧ (handleJoinQueue env p).totalServed = p.totalServed
      ∧ (handleJoinQueue env p).queueCounter = p.queueCounter
      ∧ (handleJoinQueue env p).dom.notifications = p.dom.notifications
      ∧ (handleJoinQueue env p).dom.alerts = p.dom.alerts ++ ["Please enter your name"] := by
  rw [handleJoinQueue_blank env p ((jsTrim_eq_empty_iff _).mpr h)]
  simp [alert]

/-- C6: `serveNextUser` changes none of the four globals when the queue is
empty or somebody is being served; otherwise the former first element of the
queue becomes `currentlyServing`, the queue becomes its former tail (one
shorter), and `totalServed` and `queueCounter` stay. -/
theorem serveNextUser_effect (p : Page) :
    ((p.queue = [] ∨ p.currentlyServing ≠ none) →
        (serveNextUser p).queue = p.queue
          ∧ (serveNextUser p).currentlyServing = p.currentlyServing
          ∧ (serveNextUser p).totalServed = p.totalServed
          ∧ (serveNextUser p).queueCounter = p.queueCounter)
      ∧ (∀ (first : User) (rest : List User),
          p.queue = first :: rest → p.currentlyServing = none →
            (serveNextUser p).currentlyServing = some first
              ∧ (serveNextUser p).queue = rest
              ∧ (serveNextUser p).queue.length + 1 = p.queue.length
              ∧ (serveNextUser p).totalServed = p.totalServed
              ∧ (serveNextUser p).queueCounter = p.queueCounter) := by
  refine ⟨serveNextUser_idle p, ?_⟩
  intro first rest hq hs
  obtain ⟨h1, h2, h3, h4⟩ := serveNextUser_serves p first rest hq hs
  refine ⟨h2, h1, ?_, h3, h4⟩
  rw [h1, hq]
  simp

/-- C7: `completeService` changes nothing when nobody is being served;
otherwise `totalServed` grows by exactly one and `currentlyServing` becomes
null, while the queue and `queueCounter` stay. -/
theorem completeService_effect (p : Page) :
    (p.currentlyServing = none → completeService p = p)
      ∧ (p.currentlyServing ≠ none →
          (completeService p).totalServed = p.totalServed + 1
            ∧ (completeService p).currentlyServing = none
            ∧ (completeService p).queue = p.queue
            ∧ (completeService p).queueCounter = p.queueCounter) := by
  refine ⟨completeService_idle p, ?_⟩
  intro h
  obtain ⟨h1, h2, h3, h4⟩ := completeService_busy p h
  exact ⟨h3, h2, h1, h4⟩

end Script

namespace Script

/-- C4 on the demo page with the name "  Ann " typed in. -/
theorem handleJoinQueue_appends_witness :
    jsTrim (demoPage "  Ann ").dom.userNameValue ≠ ""
      ∧ (handleJoinQueue demoEnv (demoPage "  Ann ")).queueCounter = 2
      ∧ (handleJoinQueue demoEnv (demoPage "  Ann ")).dom.notifications
          = ["Ann added to queue (Position #1)"] :=
  ⟨by decide,
   (handleJoinQueue_appends.1 demoEnv (demoPage "  Ann ") (by decide)).2.1,
   by
    have h := (handleJoinQueue_appends.1 demoEnv (demoPage "  Ann ") (by decide)).2.2.2.2
    rw [h]
    decide⟩

/-- C5 on the demo page with a blank and a tab typed in. -/
theorem handleJoinQueue_rejects_blank_witness :
    (∀ c ∈ (demoPage " \t ").dom.userNameValue.data, isJsWhiteSpace c = true)
      ∧ (handleJoinQueue demoEnv (demoPage " \t ")).queue = []
      ∧ (handleJoinQueue demoEnv (demoPage " \t ")).queueCounter = 1 :=
  ⟨by decide,
   (handleJoinQueue_rejects_blank demoEnv (demoPage " \t ") (by decide)).1,
   (handleJoinQueue_rejects_blank demoEnv (demoPage " \t ") (by decide)).2.2.2.1⟩

/-- C6 on the empty demo page and on the page after Ann has joined. -/
theorem serveNextUser_effect_witness :
    ((demoPage "").queue = [] ∨ (demoPage "").currentlyServing ≠ none)
      ∧ (serveNextUser (demoPage "")).queue = []
      ∧ (handleJoinQueue demoEnv (demoPage "Ann")).queue = [newUser demoEnv (demoPage "Ann")]
      ∧ (handleJoinQueue demoEnv (demoPage "Ann")).currentlyServing = none
      ∧ (serveNextUser (handleJoinQueue demoEnv (demoPage "Ann"))).currentlyServing
          = some (newUser demoEnv (demoPage "Ann"))
      ∧ (serveNextUser (handleJoinQueue demoEnv (demoPage "Ann"))).queue = [] :=
  ⟨Or.inl rfl,
   ((serveNextUser_effect (demoPage "")).1 (Or.inl rfl)).1,
   by decide, by decide,
   ((serveNextUser_effect (handleJoinQueue demoEnv (demoPage "Ann"))).2
      (newUser demoEnv (demoPage "Ann")) [] (by decide) (by decide)).1,
   ((serveNextUser_effect (handleJoinQueue demoEnv (demoPage "Ann"))).2
      (newUser demoEnv (demoPage "Ann")) [] (by decide) (by decide)).2.1⟩

/-- C7 on the empty demo page and on the page where Ann is being served. -/
theorem completeService_effect_witness :
    (demoPage "").currentlyServing = none
      ∧ completeService (demoPage "") = demoPage ""
      ∧ (serveNextUser (handleJoinQueue demoEnv (demoPage "Ann"))).currentlyServing ≠ none
      ∧ (completeService (serveNextUser (handleJoinQueue demoEnv (demoPage "Ann")))).totalServed
          = 1
      ∧ (completeService
          (serveNextUser (handleJoinQueue demoEnv (demoPage "Ann")))).currentlyServing = none :=
  ⟨rfl,
   (completeService_effect (demoPage "")).1 rfl,
   by decide,
   ((completeService_effect (serveNextUser (handleJoinQueue demoEnv (demoPage "Ann")))).2
      (by decide)).1,
   ((completeService_effect (serveNextUser (handleJoinQueue demoEnv (demoPage "Ann")))).2
      (by decide)).2.1⟩

end Script

/-! ## The admin dashboard -/

namespace Admin

theorem updateStatisticsAndNext_frame (data : QueueStatus) (w : World) :
    (updateStatisticsAndNext data w).serveBtn = w.serveBtn
      ∧ (updateStatisticsAndNext data w).requests = w.requests := by
  unfold updateStatisticsAndNext updateNextCustomer
  simp only []
  split
  · exact ⟨rfl, rfl⟩
  · split <;> exact ⟨rfl, rfl⟩

theorem updateQueueList_frame (clock : Clock) (tickets : WaitingTickets) (w : World) :
    (updateQueueList clock tickets w).2.serveBtn = w.serveBtn
      ∧ (updateQueueList clock tickets w).2.requests = w.requests := by
  unfold updateQueueList
  cases w.queueList with
  | none => exact ⟨rfl, rfl⟩
  | some _ =>
    cases tickets with
    | absent => exact ⟨rfl, rfl⟩
    | array entries =>
      simp only []
      split
      · exact ⟨rfl, rfl⟩
      · split <;> exact ⟨rfl, rfl⟩
    | other length =>
      simp only []
      split <;> exact ⟨rfl, rfl⟩

theorem queueRows_listable (clock : Clock) (entries : List (Option Ticket))
    (h : entries.all (fun entry => entry.isSome) = true) :
    ∃ rows, queueRows clock entries = Except.ok rows := by
  induction entries with
  | nil => exact ⟨[], rfl⟩
  | cons entry rest ih =>
    simp only [List.all_cons, Bool.and_eq_true] at h
    obtain ⟨he, hr⟩ := h
    obtain ⟨rows, hrows⟩ := ih hr
    cases entry with
    | none => simp at he
    | some ticket => exact ⟨queueRow clock ticket :: rows, by simp [queueRows, hrows]⟩

theorem updateQueueList_listable (clock : Clock) (tickets : WaitingTickets) (w : World)
    (h : tickets.listable = true) : (updateQueueList clock tickets w).1 = Except.ok () := by
  unfold updateQueueList
  cases w.queueList with
  | none => rfl
  | some _ =>
    cases tickets with
    | absent => rfl
    | array entries =>
      obtain ⟨rows, hrows⟩ := queueRows_listable clock entries h
      simp only [hrows]
      split <;> rfl
    | other length =>
      have hl : (!length.truthy) = true := h
      simp only [hl, if_true]

theorem updateAdminDashboard_run (clock : Clock) (data : QueueStatus) (w : World) :
    updateAdminDashboard clock data w
      = match updateQueueList clock data.waiting_tickets (updateStatisticsAndNext data w) with
        | (Except.ok _, w1) => (Except.ok (), updateServeButton data w1)
        | (Except.error e, w1) => (Except.error e, w1) := by
  show Js.andThen (Js.modify (updateStatisticsAndNext data))
      (fun _ => Js.andThen (updateQueueList clock data.waiting_tickets)
        (fun _ => Js.modify (updateServeButton data))) w = _
  unfold Js.andThen Js.modify
  simp only []
  split <;> simp_all

theorem updateAdminDashboard_requests (clock : Clock) (data : QueueStatus) (w : World) :
    (updateAdminDashboard clock data w).2.requests = w.requests := by
  rw [updateAdminDashboard_run]
  have h1 := (updateQueueList_frame clock data.waiting_tickets
    (updateStatisticsAndNext data w)).2
  rw [(updateStatisticsAndNext_frame data w).2] at h1
  split
  · rename_i w1 heq
    rw [heq] at h1
    simp only [updateServeButton]
    split
    · exact h1
    · split <;> exact h1
  · rename_i e w1 heq
    rw [heq] at h1
    exact h1

/-- C2 as stated fails: the payload with `waiting_count` 0 and one `null` entry
in `waiting_tickets` makes `updateQueueList` throw before the serve button is
reached, so the button stays enabled with its old label. -/
theorem updateAdminDashboard_null_ticket :
    nullTicketPayload.waiting_count = JsVal.num 0
      ∧ (updateAdminDashboard demoClock nullTicketPayload (demoWorld true)).1
          = Except.error (JsError.typeError "ticket is null")
      ∧ (updateAdminDashboard demoClock nullTicketPayload (demoWorld true)).2.serveBtn
          = some { innerHTML := "Serve Next Customer", disabled := false } :=
  ⟨rfl, rfl, rfl⟩

/-- C2, amended: on a page that has the serve button, whenever
`updateAdminDashboard` returns normally it leaves the button disabled with the
"No Customers" label if the payload has `waiting_count` equal to 0, and enabled
with the "Serve Next Customer" label for every other payload; and it returns
normally for every payload whose `waiting_tickets` is absent, an array of
ticket objects, or a value without a truthy `length`. -/
theorem updateAdminDashboard_serve_button (clock : Clock) (data : QueueStatus) (w : World)
    (h : w.serveBtn.isSome = true) :
    ((updateAdminDashboard clock data w).1 = Except.ok () →
        (data.waiting_count = JsVal.num 0 →
          (updateAdminDashboard clock data w).2.serveBtn
            = some { disabled := true,
                     innerHTML := "<span class=\"btn-icon\">😴</span>No Customers" })
        ∧ (data.waiting_count ≠ JsVal.num 0 →
          (updateAdminDashboard clock data w).2.serveBtn
            = some { disabled := false,
                     innerHTML := "<span class=\"btn-icon\">👤</span>Serve Next Customer" }))
      ∧ (data.waiting_tickets.listable = true →
          (updateAdminDashboard clock data w).1 = Except.ok ()) := by
  obtain ⟨btn, hb⟩ := Option.isSome_iff_exists.mp h
  have h1 := (updateQueueList_frame clock data.waiting_tickets
    (updateStatisticsAndNext data w)).1
  rw [(updateStatisticsAndNext_frame data w).1, hb] at h1
  constructor
  · intro hok
    rw [updateAdminDashboard_run] at hok ⊢
    split at hok
    · rename_i u w1 heq
      rw [heq] at h1
      have hbtn : w1.serveBtn = some btn := h1
      constructor
      · intro h0
        simp only [updateServeButton, hbtn, h0, if_true, setServeBtn]
      · intro h0
        simp only [updateServeButton, hbtn, h0, if_false, setServeBtn]
    · simp at hok
  · intro hl
    rw [updateAdminDashboard_run]
    have h2 := updateQueueList_listable clock data.waiting_tickets
      (updateStatisticsAndNext data w) hl
    split
    · rfl
    · rename_i e w1 heq
      rw [heq] at h2
      simp at h2

end Admin

/-- C2, amended, on the demo admin page, for an empty and a non-empty queue. -/
theorem updateAdminDashboard_serve_button_witness :
    (Admin.demoWorld true).serveBtn.isSome = true
      ∧ emptyQueuePayload.waiting_tickets.listable = true
      ∧ (Admin.updateAdminDashboard demoClock emptyQueuePayload (Admin.demoWorld true)).2.serveBtn
          = some { disabled := true,
                   innerHTML := "<span class=\"btn-icon\">😴</span>No Customers" }
      ∧ (Admin.updateAdminDashboard demoClock oneWaitingPayload (Admin.demoWorld true)).2.serveBtn
          = some { disabled := false,
                   innerHTML := "<span class=\"btn-icon\">👤</span>Serve Next Customer" } :=
  ⟨rfl, rfl,
   ((Admin.updateAdminDashboard_serve_button demoClock emptyQueuePayload (Admin.demoWorld true)
      rfl).1
      ((Admin.updateAdminDashboard_serve_button demoClock emptyQueuePayload
        (Admin.demoWorld true) rfl).2 rfl)).1 rfl,
   ((Admin.updateAdminDashboard_serve_button demoClock oneWaitingPayload (Admin.demoWorld true)
      rfl).1
      ((Admin.updateAdminDashboard_serve_button demoClock oneWaitingPayload
        (Admin.demoWorld true) rfl).2 rfl)).2 (by decide)⟩

/-! ## The logs -/

theorem take_cons_take {α : Type} (n : Nat) (a : α) (l : List α) :
    (a :: l.take n).take n = (a :: l).take n := by
  cases n with
  | zero => rfl
  | succ m => simp [List.take_take]

theorem dropLast_eq_take_of_length {α : Type} (n : Nat) (l : List α) (h : l.length = n + 1) :
    l.dropLast = l.take n := by
  rw [List.dropLast_eq_take, h]
  rfl

/-- An item whose content holds no element of its own class counts once and is
itself the element that `remove()` takes away. -/
theorem item_single (cls : String) (classes : List String) (content : List Node)
    (hc : cls ∈ classes) (h0 : countClassIn cls content = 0) :
    (Node.element classes content).countClass cls = 1
      ∧ (Node.element classes content).removeLastOfClass cls = none := by
  constructor
  · simp [Node.countClass, hc, h0]
  · simp [Node.removeLastOfClass, hc, h0]

theorem countClassIn_single (cls : String) (l : List Node)
    (h : ∀ n ∈ l, n.countClass cls = 1) : countClassIn cls l = l.length := by
  induction l with
  | nil => rfl
  | cons a l ih =>
    have ha := h a (by simp)
    have hl := ih (fun n hn => h n (by simp [hn]))
    simp only [countClassIn, ha, hl, List.length_cons]
    omega

theorem removeLastOfClassIn_single (cls : String) (l : List Node)
    (h : ∀ n ∈ l, n.countClass cls = 1 ∧ n.removeLastOfClass cls = none) :
    removeLastOfClassIn cls l = l.dropLast := by
  induction l with
  | nil => rfl
  | cons a l ih =>
    have ha := h a (by simp)
    have hl : ∀ n ∈ l, n.countClass cls = 1 ∧ n.removeLastOfClass cls = none :=
      fun n hn => h n (by simp [hn])
    have hcount := countClassIn_single cls l (fun n hn => (hl n hn).1)
    cases l with
    | nil => simp [removeLastOfClassIn, countClassIn, ha.2]
    | cons b l =>
      have hpos : countClassIn cls (b :: l) > 0 := by
        rw [hcount]
        simp
      simp only [removeLastOfClassIn, hpos, if_true] at ih ⊢
      rw [ih hl]
      rfl

/-- One addition to a container that holds the `limit` newest of the items
made from `older`, when no item holds an element of the item class. -/
theorem prependAndTrim_take (itemClass : String) (limit : Nat) (mk : LogCall → Node)
    (c : LogCall) (older : List LogCall)
    (h : ∀ d ∈ c :: older,
      (mk d).countClass itemClass = 1 ∧ (mk d).removeLastOfClass itemClass = none) :
    prependAndTrim itemClass limit (mk c) ((older.map mk).take limit)
      = ((c :: older).map mk).take limit := by
  have hall : ∀ n ∈ mk c :: (older.map mk).take limit,
      n.countClass itemClass = 1 ∧ n.removeLastOfClass itemClass = none := by
    intro n hn
    rcases List.mem_cons.mp hn with rfl | hn
    · exact h c (by simp)
    · obtain ⟨d, hd, rfl⟩ := List.mem_map.mp (List.mem_of_mem_take hn)
      exact h d (by simp [hd])
  unfold prependAndTrim
  simp only []
  rw [countClassIn_single itemClass _ (fun n hn => (hall n hn).1), List.map_cons,
    ← take_cons_take]
  by_cases hlen : (mk c :: (older.map mk).take limit).length > limit
  · rw [if_pos hlen, removeLastOfClassIn_single itemClass _ hall]
    apply dropLast_eq_take_of_length
    have h1 : ((older.map mk).take limit).length ≤ limit := List.length_take_le _ _
    simp only [List.length_cons] at hlen ⊢
    omega
  · rw [if_neg hlen]
    symm
    apply List.take_of_length_le
    omega

theorem foldl_prependAndTrim (itemClass : String) (limit : Nat) (mk : LogCall → Node)
    (calls : List LogCall) :
    ∀ done : List LogCall,
      (∀ d ∈ calls ++ done,
        (mk d).countClass itemClass = 1 ∧ (mk d).removeLastOfClass itemClass = none) →
      calls.foldl (fun l c => prependAndTrim itemClass limit (mk c) l)
          ((done.map mk).take limit)
        = ((calls.reverse ++ done).map mk).take limit := by
  induction calls with
  | nil => intro done _; rfl
  | cons c calls ih =>
    intro done h
    rw [List.foldl_cons, prependAndTrim_take itemClass limit mk c done
      (fun d hd => h d (by
        rcases List.mem_cons.mp hd with rfl | hd
        · simp
        · simp [hd])),
      ih (c :: done) (fun d hd => h d (by
        rcases List.mem_append.mp hd with hd | hd
        · simp [hd]
        · rcases List.mem_cons.mp hd with rfl | hd
          · simp
          · simp [hd]))]
    simp

theorem admin_logAll_activityLog (calls : List LogCall) :
    ∀ (w w0 : Admin.World) (l : List Node), w.activityLog = some l →
      w.parseHtml = w0.parseHtml →
      (Admin.logAll calls w).activityLog
        = some (calls.foldl
            (fun l c => prependAndTrim "activity-item" Admin.activityLimit
              (Admin.activityItem w0 c) l) l) := by
  induction calls with
  | nil => intro w w0 l h _; simpa [Admin.logAll] using h
  | cons c calls ih =>
    intro w w0 l h hp
    have h1 : (Admin.addActivityLog c.clock c.message c.type w).activityLog
        = some (prependAndTrim "activity-item" Admin.activityLimit
            (Admin.activityItem w0 c) l) := by
      unfold Admin.addActivityLog Admin.activityItem
      rw [h, hp]
    have h2 : (Admin.addActivityLog c.clock c.message c.type w).parseHtml = w0.parseHtml := by
      unfold Admin.addActivityLog
      rw [h]
      exact hp
    have := ih _ w0 _ h1 h2
    simpa [Admin.logAll] using this

theorem app_logAll_liveUpdates (calls : List LogCall) :
    ∀ (w w0 : App.World) (l : List Node), w.liveUpdates = some l →
      w.parseHtml = w0.parseHtml →
      (App.logAll calls w).liveUpdates
        = some (calls.foldl
            (fun l c => prependAndTrim "update-item" App.liveUpdateLimit
              (App.updateItem w0 c) l) l) := by
  induction calls with
  | nil => intro w w0 l h _; simpa [App.logAll] using h
  | cons c calls ih =>
    intro w w0 l h hp
    have h1 : (App.addLiveUpdate c.clock c.message c.type w).liveUpdates
        = some (prependAndTrim "update-item" App.liveUpdateLimit (App.updateItem w0 c) l) := by
      unfold App.addLiveUpdate App.updateItem
      rw [h, hp]
    have h2 : (App.addLiveUpdate c.clock c.message c.type w).parseHtml = w0.parseHtml := by
      unfold App.addLiveUpdate
      rw [h]
      exact hp
    have := ih _ w0 _ h1 h2
    simpa [App.logAll] using this

/-- What the two logs do keep: starting from an empty log, when the markup of
no message yields an element of the item class, n calls of `addActivityLog`
leave exactly the min(n, 15) newest activities, newest first, and n calls of
`addLiveUpdate` exactly the min(n, 10) newest updates. -/
theorem logs_keep_newest_plain (calls : List LogCall) :
    (∀ w : Admin.World, w.activityLog = some [] →
        (∀ c ∈ calls, countClassIn "activity-item"
          (w.parseHtml (Admin.activityMarkup c.message c.clock.localeTime)) = 0) →
        (Admin.logAll calls w).activityLog
            = some ((calls.reverse.map (Admin.activityItem w)).take 15)
          ∧ ((Admin.logAll calls w).activityLog.getD []).length = min calls.length 15)
      ∧ (∀ w : App.World, w.liveUpdates = some [] →
        (∀ c ∈ calls, countClassIn "update-item"
          (w.parseHtml (App.updateMarkup c.message c.clock.localeTime)) = 0) →
        (App.logAll calls w).liveUpdates
            = some ((calls.reverse.map (App.updateItem w)).take 10)
          ∧ ((App.logAll calls w).liveUpdates.getD []).length = min calls.length 10) := by
  constructor
  · intro w h hplain
    have h1 := admin_logAll_activityLog calls w w [] h rfl
    have h2 := foldl_prependAndTrim "activity-item" Admin.activityLimit (Admin.activityItem w)
      calls [] (fun d hd => item_single _ _ _ (by simp) (hplain d (by simpa using hd)))
    simp only [List.map_nil, List.take_nil, List.append_nil] at h2
    rw [h2] at h1
    rw [h1]
    refine ⟨rfl, ?_⟩
    simp [Admin.activityLimit, Nat.min_comm]
  · intro w h hplain
    have h1 := app_logAll_liveUpdates calls w w [] h rfl
    have h2 := foldl_prependAndTrim "update-item" App.liveUpdateLimit (App.updateItem w)
      calls [] (fun d hd => item_single _ _ _ (by simp) (hplain d (by simpa using hd)))
    simp only [List.map_nil, List.take_nil, List.append_nil] at h2
    rw [h2] at h1
    rw [h1]
    refine ⟨rfl, ?_⟩
    simp [App.liveUpdateLimit, Nat.min_comm]

/-- An example of `logs_keep_newest_plain`: seventeen plain messages on the demo pages. -/
theorem logs_keep_newest_plain_example :
    ((Admin.logAll demoCalls (Admin.demoWorld true)).activityLog.getD []).length = 15
      ∧ ((App.logAll demoCalls (App.demoWorld true)).liveUpdates.getD []).length = 10 :=
  ⟨((logs_keep_newest_plain demoCalls).1 (Admin.demoWorld true) rfl (by decide)).2,
   ((logs_keep_newest_plain demoCalls).2 (App.demoWorld true) rfl (by decide)).2⟩

set_option maxRecDepth 1000000 in
/-- C9 fails on the code when a message carries markup of the item class.  The
parser reads the message `<div class="activity-item">0</div>` as an element of
class `activity-item` inside the new activity; `querySelectorAll` counts it and
`remove()` takes it away in place of the oldest activity.  After 9 calls with
such messages the activity log holds 8 activities, not 9, and after 40 calls it
holds 24, not 15; the live-update list holds 23 updates after 40 calls, not 10. -/
theorem logs_grow_with_item_markup :
    demoParseHtml (Admin.activityMarkup "<div class=\"activity-item\">0</div>" "9:05:00 AM")
        = [Node.text "\n        ",
           Node.element ["activity-text"] [Node.element ["activity-item"] [Node.text "0"]],
           Node.text "\n        ",
           Node.element ["activity-time"] [Node.text "9:05:00 AM"],
           Node.text "\n    "]
      ∧ ((Admin.logAll (markupCalls "activity-item" 9)
            (Admin.demoWorld true)).activityLog.getD []).length = 8
      ∧ ((Admin.logAll (markupCalls "activity-item" 40)
            (Admin.demoWorld true)).activityLog.getD []).length = 24
      ∧ ((App.logAll (markupCalls "update-item" 40)
            (App.demoWorld true)).liveUpdates.getD []).length = 23 := by
  refine ⟨rfl, by decide, by decide, by decide⟩

/-! ## Failures of the network and the polling fallback -/

theorem fetchOutcome_failed_cases {α : Type} (reply : FetchOutcome α) (h : reply.failed = true) :
    reply = FetchOutcome.networkFailure ∨ reply = FetchOutcome.parseFailure := by
  cases reply with
  | networkFailure => exact Or.inl rfl
  | parseFailure => exact Or.inr rfl
  | body _ => simp [FetchOutcome.failed] at h

theorem admin_loadQueueStatus_failed (clock : Clock) (reply : FetchOutcome QueueStatus)
    (w : Admin.World) (h : reply.failed = true) :
    Admin.loadQueueStatus clock reply w
      = (Except.ok (),
          Admin.addActivityLog clock "❌ Failed to load queue status" "error"
            (Admin.consoleLog "error" "Error loading queue status:"
              (Admin.fetch "GET" "/api/queue-status" w))) := by
  rcases fetchOutcome_failed_cases reply h with rfl | rfl <;> rfl

theorem admin_addActivityLog_toasts (clock : Clock) (message type : String) (w : Admin.World) :
    (Admin.addActivityLog clock message type w).toasts = w.toasts
      ∧ (Admin.addActivityLog clock message type w).requests = w.requests
      ∧ (Admin.addActivityLog clock message type w).console = w.console
      ∧ (Admin.addActivityLog clock message type w).serveBtn = w.serveBtn := by
  unfold Admin.addActivityLog
  cases w.activityLog <;> simp

theorem admin_serveNext_failed (clock : Clock) (reply : FetchOutcome ActionResult)
    (w : Admin.World) (btn : Button) (hb : w.serveBtn = some btn) (h : reply.failed = true) :
    Admin.serveNext clock reply w
      = (Except.ok (),
          Admin.setServeBtn { innerHTML := btn.innerHTML, disabled := false }
            (Admin.showNotification (JsVal.str "Network error - please try again") "error"
              (Admin.consoleLog "error" "Error serving next customer:"
                (Admin.fetch "POST" "/api/serve-next"
                  (Admin.setServeBtn
                    { innerHTML := "<span class=\"spinner\"></span>Serving...", disabled := true }
                    w))))) := by
  unfold Admin.serveNext
  rw [hb]
  rcases fetchOutcome_failed_cases reply h with rfl | rfl <;> rfl

theorem admin_exportData_failed (clock : Clock) (reply : FetchOutcome QueueStatus)
    (w : Admin.World) (h : reply.failed = true) :
    Admin.exportData clock reply w
      = (Except.ok (),
          Admin.showNotification (JsVal.str "Export failed") "error"
            (Admin.consoleLog "error" "Export error:"
              (Admin.fetch "GET" "/api/queue-status" w))) := by
  rcases fetchOutcome_failed_cases reply h with rfl | rfl <;> rfl

theorem app_loadQueueStatus_failed (reply : FetchOutcome QueueStatus)
    (w : App.World) (h : reply.failed = true) :
    App.loadQueueStatus reply w
      = (Except.ok (),
          App.consoleLog "error" "Error loading queue status:"
            (App.fetch "GET" "/api/queue-status" w)) := by
  rcases fetchOutcome_failed_cases reply h with rfl | rfl <;> rfl

theorem app_refreshTicketStatus_failed (reply : FetchOutcome TicketReply)
    (w : App.World) (current : Ticket) (hc : w.currentTicket = some current)
    (h : reply.failed = true) :
    App.refreshTicketStatus reply w
      = (Except.ok (),
          App.consoleLog "error" "Error refreshing ticket status:"
            (App.fetch "GET" ("/api/my-ticket/" ++ current.id.toStr) w)) := by
  unfold App.refreshTicketStatus
  rw [hc]
  rcases fetchOutcome_failed_cases reply h with rfl | rfl <;> rfl

theorem app_requestTicket_failed (clock : Clock) (reply : FetchOutcome ActionResult)
    (w : App.World) (form : App.Form) (hf : w.form = some form)
    (hv : (App.missing form.values.name || App.missing form.values.email
            || App.missing form.values.category || App.missing form.values.priority) = false)
    (h : reply.failed = true) :
    App.requestTicket clock reply w
      = (Except.ok (),
          App.setSubmitBtn
            { innerHTML := (form.submitBtn.map (fun b => b.innerHTML)).getD "", disabled := false }
            (App.showNotification (JsVal.str "Network error - please try again") "error"
              (App.consoleLog "error" "Error requesting ticket:"
                (App.fetch "POST" "/api/request-ticket"
                  (App.setSubmitBtn
                    { innerHTML := "<span class=\"spinner\"></span> Requesting...",
                      disabled := true } w))))) := by
  unfold App.requestTicket
  rw [hf]
  simp only [hv]
  rcases fetchOutcome_failed_cases reply h with rfl | rfl <;> rfl

/-- C3, as stated, fails: in the customer client a failed fetch inside
`loadQueueStatus` is caught, but no notification is shown; the failure is only
written to the console.  The same holds for a failed JSON parse. -/
theorem app_loadQueueStatus_failure_silent :
    (App.loadQueueStatus FetchOutcome.networkFailure (App.demoWorld false)).1 = Except.ok ()
      ∧ (App.loadQueueStatus FetchOutcome.networkFailure (App.demoWorld false)).2.toasts = []
      ∧ (App.loadQueueStatus FetchOutcome.parseFailure (App.demoWorld false)).2.toasts = []
      ∧ (App.loadQueueStatus FetchOutcome.networkFailure (App.demoWorld false)).2.console
          = [("error", "Error loading queue status:")] := by
  refine ⟨rfl, rfl, rfl, rfl⟩

/-- C3, amended: in each of the six operations that talk to the server a failed
fetch or JSON parse is caught, so the operation returns normally.  The admin
`serveNext` and `exportData` and the customer `requestTicket` then show one
error notification (and `serveNext` / `requestTicket` restore and re-enable
their button); the admin `loadQueueStatus` shows no notification and writes an
entry to the activity log instead; the customer `loadQueueStatus` and
`refreshTicketStatus` show no notification and only write to the console. -/
theorem fetch_failures_caught (clock : Clock) :
    (∀ (reply : FetchOutcome QueueStatus) (w : Admin.World), reply.failed = true →
        (Admin.loadQueueStatus clock reply w).1 = Except.ok ()
          ∧ (Admin.loadQueueStatus clock reply w).2.toasts = w.toasts
          ∧ (Admin.loadQueueStatus clock reply w).2.console
              = w.console ++ [("error", "Error loading queue status:")]
          ∧ (Admin.loadQueueStatus clock reply w).2.activityLog
              = (Admin.addActivityLog clock "❌ Failed to load queue status" "error"
                  w).activityLog)
      ∧ (∀ (reply : FetchOutcome ActionResult) (w : Admin.World) (btn : Button),
          w.serveBtn = some btn → reply.failed = true →
        (Admin.serveNext clock reply w).1 = Except.ok ()
          ∧ (Admin.serveNext clock reply w).2.toasts = w.toasts ++
              [{ className := "notification error",
                 textContent := JsVal.str "Network error - please try again" }]
          ∧ (Admin.serveNext clock reply w).2.serveBtn
              = some { innerHTML := btn.innerHTML, disabled := false })
      ∧ (∀ (reply : FetchOutcome QueueStatus) (w : Admin.World), reply.failed = true →
        (Admin.exportData clock reply w).1 = Except.ok ()
          ∧ (Admin.exportData clock reply w).2.toasts = w.toasts ++
              [{ className := "notification error", textContent := JsVal.str "Export failed" }]
          ∧ (Admin.exportData clock reply w).2.downloads = w.downloads)
      ∧ (∀ (reply : FetchOutcome QueueStatus) (w : App.World), reply.failed = true →
        (App.loadQueueStatus reply w).1 = Except.ok ()
          ∧ (App.loadQueueStatus reply w).2.toasts = w.toasts
          ∧ (App.loadQueueStatus reply w).2.console
              = w.console ++ [("error", "Error loading queue status:")])
      ∧ (∀ (reply : FetchOutcome ActionResult) (w : App.World) (form : App.Form),
          w.form = some form →
          (App.missing form.values.name || App.missing form.values.email
            || App.missing form.values.category || App.missing form.values.priority) = false →
          reply.failed = true →
        (App.requestTicket clock reply w).1 = Except.ok ()
          ∧ (App.requestTicket clock reply w).2.toasts = w.toasts ++
              [{ className := "notification error",
                 textContent := JsVal.str "Network error - please try again" }]
          ∧ (App.requestTicket clock reply w).2.form
              = some { form with
                  submitBtn := form.submitBtn.map
                                 (fun b => { innerHTML := b.innerHTML, disabled := false }) })
      ∧ (∀ (reply : FetchOutcome TicketReply) (w : App.World) (current : Ticket),
          w.currentTicket = some current → reply.failed = true →
        (App.refreshTicketStatus reply w).1 = Except.ok ()
          ∧ (App.refreshTicketStatus reply w).2.toasts = w.toasts
          ∧ (App.refreshTicketStatus reply w).2.console
              = w.console ++ [("error", "Error refreshing ticket status:")]
          ∧ (App.refreshTicketStatus reply w).2.currentTicket = some current) := by
  refine ⟨?_, ?_, ?_, ?_, ?_, ?_⟩
  · intro reply w h
    rw [admin_loadQueueStatus_failed clock reply w h]
    refine ⟨rfl, ?_, ?_, ?_⟩
    · rw [(admin_addActivityLog_toasts _ _ _ _).1]; rfl
    · rw [(admin_addActivityLog_toasts _ _ _ _).2.2.1]; rfl
    · unfold Admin.addActivityLog
      cases hl : w.activityLog <;> simp [Admin.consoleLog, Admin.fetch, hl]
  · intro reply w btn hb h
    rw [admin_serveNext_failed clock reply w btn hb h]
    exact ⟨rfl, rfl, rfl⟩
  · intro reply w h
    rw [admin_exportData_failed clock reply w h]
    exact ⟨rfl, rfl, rfl⟩
  · intro reply w h
    rw [app_loadQueueStatus_failed reply w h]
    exact ⟨rfl, rfl, rfl⟩
  · intro reply w form hf hv h
    rw [app_requestTicket_failed clock reply w form hf hv h]
    refine ⟨rfl, rfl, ?_⟩
    simp only [App.setSubmitBtn, App.showNotification, App.consoleLog, App.fetch, hf,
      Option.map_some']
    cases form.submitBtn <;> rfl
  · intro reply w current hc h
    rw [app_refreshTicketStatus_failed reply w current hc h]
    exact ⟨rfl, rfl, rfl, hc⟩

/-- C3, amended, on the demo pages of both clients. -/
theorem fetch_failures_caught_witness :
    (FetchOutcome.networkFailure : FetchOutcome ActionResult).failed = true
      ∧ (Admin.serveNext demoClock FetchOutcome.networkFailure (Admin.demoWorld true)).2.toasts
          = [{ className := "notification error",
               textContent := JsVal.str "Network error - please try again" }]
      ∧ (Admin.loadQueueStatus demoClock FetchOutcome.parseFailure
            (Admin.demoWorld false)).2.toasts = []
      ∧ (App.requestTicket demoClock FetchOutcome.parseFailure (App.demoWorld true)).2.toasts
          = [{ className := "notification error",
               textContent := JsVal.str "Network error - please try again" }]
      ∧ (App.refreshTicketStatus FetchOutcome.networkFailure (App.demoWorld true)).2.toasts
          = [] :=
  ⟨rfl,
   ((fetch_failures_caught demoClock).2.1 FetchOutcome.networkFailure (Admin.demoWorld true)
      { innerHTML := "Serve Next Customer", disabled := false } rfl rfl).2.1,
   ((fetch_failures_caught demoClock).1 FetchOutcome.parseFailure (Admin.demoWorld false)
      rfl).2.1,
   ((fetch_failures_caught demoClock).2.2.2.2.1 FetchOutcome.parseFailure (App.demoWorld true)
      _ rfl rfl rfl).2.1,
   ((fetch_failures_caught demoClock).2.2.2.2.2 FetchOutcome.networkFailure (App.demoWorld true)
      demoTicket rfl rfl).2.1⟩
theorem admin_loadQueueStatus_body (clock : Clock) (data : QueueStatus) (w : Admin.World) :
    Admin.loadQueueStatus clock (FetchOutcome.body data) w
      = match Admin.updateAdminDashboard clock data (Admin.fetch "GET" "/api/queue-status" w) with
        | (Except.ok _, w1) => (Except.ok (), w1)
        | (Except.error _, w1) =>
            (Except.ok (),
              Admin.addActivityLog clock "❌ Failed to load queue status" "error"
                (Admin.consoleLog "error" "Error loading queue status:" w1)) := by
  show Js.tryCatch
      (Js.andThen (Js.modify (Admin.fetch "GET" "/api/queue-status"))
        (fun _ => Js.andThen (Js.awaitJson (FetchOutcome.body data))
          (fun data1 => Admin.updateAdminDashboard clock data1)))
      (fun _ => Js.andThen (Js.modify (Admin.consoleLog "error" "Error loading queue status:"))
        (fun _ => Js.modify
          (Admin.addActivityLog clock "❌ Failed to load queue status" "error"))) w = _
  unfold Js.tryCatch Js.andThen Js.modify Js.awaitJson Js.ret
  simp only []
  split <;> simp_all

theorem admin_loadQueueStatus_requests (clock : Clock) (reply : FetchOutcome QueueStatus)
    (w : Admin.World) :
    (Admin.loadQueueStatus clock reply w).2.requests
      = w.requests ++ [{ method := "GET", url := "/api/queue-status" }] := by
  cases reply with
  | networkFailure =>
    rw [admin_loadQueueStatus_failed clock FetchOutcome.networkFailure w rfl,
      (admin_addActivityLog_toasts _ _ _ _).2.1]
    rfl
  | parseFailure =>
    rw [admin_loadQueueStatus_failed clock FetchOutcome.parseFailure w rfl,
      (admin_addActivityLog_toasts _ _ _ _).2.1]
    rfl
  | body data =>
    rw [admin_loadQueueStatus_body]
    have h1 := Admin.updateAdminDashboard_requests clock data
      (Admin.fetch "GET" "/api/queue-status" w)
    split
    · rename_i u w1 heq
      rw [heq] at h1
      exact h1
    · rename_i e w1 heq
      rw [heq] at h1
      rw [(admin_addActivityLog_toasts _ _ _ _).2.1]
      exact h1

theorem app_loadQueueStatus_requests (reply : FetchOutcome QueueStatus) (w : App.World) :
    (App.loadQueueStatus reply w).2.requests
      = w.requests ++ [{ method := "GET", url := "/api/queue-status" }] := by
  cases reply with
  | networkFailure => rfl
  | parseFailure => rfl
  | body data =>
    show (App.updateQueueStatus data (App.fetch "GET" "/api/queue-status" w)).requests = _
    unfold App.updateQueueStatus App.updatePriorityStats
    simp only []
    split <;> rfl

/-- C8: polling is only a fallback.  In the admin client and in the customer
client alike, a tick of the interval timer runs `loadQueueStatus` (and so sends
`GET /api/queue-status`) when the socket is undefined or not connected, and
does nothing at all when the socket is connected. -/
theorem polling_is_fallback (clock : Clock) (reply : FetchOutcome QueueStatus) :
    (∀ w : Admin.World,
        ((w.socket = none ∨ ∃ s, w.socket = some s ∧ s.connected = false) →
            Admin.pollTick clock reply w = Admin.loadQueueStatus clock reply w)
          ∧ ((∃ s, w.socket = some s ∧ s.connected = true) →
            Admin.pollTick clock reply w = (Except.ok (), w))
          ∧ ((Admin.pollTick clock reply w).2.requests
                = w.requests ++ [{ method := "GET", url := "/api/queue-status" }]
              ↔ (w.socket = none ∨ ∃ s, w.socket = some s ∧ s.connected = false)))
      ∧ (∀ w : App.World,
        ((w.socket = none ∨ ∃ s, w.socket = some s ∧ s.connected = false) →
            App.pollTick reply w = App.loadQueueStatus reply w)
          ∧ ((∃ s, w.socket = some s ∧ s.connected = true) →
            App.pollTick reply w = (Except.ok (), w))
          ∧ ((App.pollTick reply w).2.requests
                = w.requests ++ [{ method := "GET", url := "/api/queue-status" }]
              ↔ (w.socket = none ∨ ∃ s, w.socket = some s ∧ s.connected = false))) := by
  constructor
  · intro w
    have hdown : (w.socket = none ∨ ∃ s, w.socket = some s ∧ s.connected = false) →
        Admin.pollTick clock reply w = Admin.loadQueueStatus clock reply w := by
      intro h
      unfold Admin.pollTick
      rcases h with h | ⟨s, h, hc⟩
      · rw [h]
      · rw [h]; simp [hc]
    have hup : (∃ s, w.socket = some s ∧ s.connected = true) →
        Admin.pollTick clock reply w = (Except.ok (), w) := by
      rintro ⟨s, h, hc⟩
      unfold Admin.pollTick
      rw [h]; simp [hc]
    refine ⟨hdown, hup, ?_, ?_⟩
    · intro hreq
      by_contra hnot
      have hs : ∃ s, w.socket = some s ∧ s.connected = true := by
        cases hw : w.socket with
        | none => exact absurd (Or.inl hw) hnot
        | some s =>
          cases hc : s.connected with
          | false => exact absurd (Or.inr ⟨s, hw, hc⟩) hnot
          | true => exact ⟨s, rfl, hc⟩
      rw [hup hs] at hreq
      have := congrArg List.length hreq
      simp at this
    · intro h
      rw [hdown h, admin_loadQueueStatus_requests]
  · intro w
    have hdown : (w.socket = none ∨ ∃ s, w.socket = some s ∧ s.connected = false) →
        App.pollTick reply w = App.loadQueueStatus reply w := by
      intro h
      unfold App.pollTick
      rcases h with h | ⟨s, h, hc⟩
      · rw [h]
      · rw [h]; simp [hc]
    have hup : (∃ s, w.socket = some s ∧ s.connected = true) →
        App.pollTick reply w = (Except.ok (), w) := by
      rintro ⟨s, h, hc⟩
      unfold App.pollTick
      rw [h]; simp [hc]
    refine ⟨hdown, hup, ?_, ?_⟩
    · intro hreq
      by_contra hnot
      have hs : ∃ s, w.socket = some s ∧ s.connected = true := by
        cases hw : w.socket with
        | none => exact absurd (Or.inl hw) hnot
        | some s =>
          cases hc : s.connected with
          | false => exact absurd (Or.inr ⟨s, hw, hc⟩) hnot
          | true => exact ⟨s, rfl, hc⟩
      rw [hup hs] at hreq
      have := congrArg List.length hreq
      simp at this
    · intro h
      rw [hdown h, app_loadQueueStatus_requests]

/-- C8 on a connected admin page and a disconnected customer page. -/
theorem polling_is_fallback_witness :
    (∃ s, (Admin.demoWorld true).socket = some s ∧ s.connected = true)
      ∧ Admin.pollTick demoClock FetchOutcome.networkFailure (Admin.demoWorld true)
          = (Except.ok (), Admin.demoWorld true)
      ∧ ((App.demoWorld false).socket = none
          ∨ ∃ s, (App.demoWorld false).socket = some s ∧ s.connected = false)
      ∧ App.pollTick FetchOutcome.networkFailure (App.demoWorld false)
          = App.loadQueueStatus FetchOutcome.networkFailure (App.demoWorld false) :=
  ⟨⟨_, rfl, rfl⟩,
   ((polling_is_fallback demoClock FetchOutcome.networkFailure).1 (Admin.demoWorld true)).2.1
      ⟨_, rfl, rfl⟩,
   Or.inr ⟨_, rfl, rfl⟩,
   ((polling_is_fallback demoClock FetchOutcome.networkFailure).2 (App.demoWorld false)).1
      (Or.inr ⟨_, rfl, rfl⟩)⟩

/-! ## `formatService` -/

/-- What the two copies of `formatService` do agree on: they are the same
function, they return the fixed label for each of the six known categories, and
they return a string category unchanged when it is neither known nor the name
of a property inherited from `Object.prototype`. -/
theorem formatService_same_and_labels :
    (∀ category : JsVal, Admin.formatService category = App.formatService category)
      ∧ Admin.formatService (JsVal.str "railway") = JsVal.str "Railway Booking"
      ∧ Admin.formatService (JsVal.str "airline") = JsVal.str "Airline Booking"
      ∧ Admin.formatService (JsVal.str "exam") = JsVal.str "Exam Registration"
      ∧ Admin.formatService (JsVal.str "government") = JsVal.str "Government Service"
      ∧ Admin.formatService (JsVal.str "healthcare") = JsVal.str "Healthcare Service"
      ∧ Admin.formatService (JsVal.str "other") = JsVal.str "Other Service"
      ∧ (∀ s : String, Admin.serviceMap.lookup s = none → s ∉ objectPrototypeKeys →
          Admin.formatService (JsVal.str s) = JsVal.str s) := by
  refine ⟨fun _ => rfl, by decide, by decide, by decide, by decide, by decide, by decide, ?_⟩
  intro s h1 h2
  simp [Admin.formatService, lookupLiteral, JsVal.toStr, h1, h2, JsVal.or, JsVal.truthy]

/-- C10 at the category `toString`: neither copy of `formatService` returns the
category unchanged; both return the function that `serviceMap` inherits under
that name, which the page then prints as source text. -/
theorem formatService_inherited_name :
    Admin.formatService (JsVal.str "toString") = JsVal.builtin "toString"
      ∧ App.formatService (JsVal.str "toString") = JsVal.builtin "toString"
      ∧ Admin.formatService (JsVal.str "toString") ≠ JsVal.str "toString"
      ∧ (Admin.formatService (JsVal.str "toString")).toStr
          = "function toString() \x7b [native code] \x7d" := by
  refine ⟨by decide, by decide, by decide, by decide⟩


end TicketLine
